import Mathlib

/-
Verification development for the mobile extraction comparison tool (MECT).

The Python sources (android_backup_parser.py, ios_backup_parser.py,
alex_parser.py, magnet_parser.py, filesystem_loader.py, path_mapper.py,
android_path_mapper.py, filesystem_mapper.py) are shallowly embedded below:
Python strings become lists of characters, Python dicts become ordered
association lists with Python's insertion-order/overwrite semantics,
Python sets become lists with membership-guarded insertion, and functions
that raise become functions into Option/Except.
-/

namespace Mect

/-- Python strings are modelled as lists of characters. -/
abbrev PStr := List Char

/-- Turn a Lean string literal into its character list. -/
def pstr (s : String) : PStr := s.data

/-- Python `s.startswith(p)`. -/
def startsWith (s p : PStr) : Bool := p.isPrefixOf s

/-- Python `s.endswith(p)`. -/
def endsWith (s p : PStr) : Bool := p.isSuffixOf s

/-- The character class used by Python's `str.strip(chars)`. -/
def stripPred (chars : PStr) (c : Char) : Bool := chars.contains c

/-- Python `s.strip(chars)`: drop leading and trailing characters drawn from `chars`. -/
def pyStrip (chars : PStr) (s : PStr) : PStr :=
  ((s.dropWhile (stripPred chars)).reverse.dropWhile (stripPred chars)).reverse

/-- Python `s.lstrip(chars)`. -/
def pyLstrip (chars : PStr) (s : PStr) : PStr :=
  s.dropWhile (stripPred chars)

/-- Python `s.rstrip(chars)`. -/
def pyRstrip (chars : PStr) (s : PStr) : PStr :=
  (s.reverse.dropWhile (stripPred chars)).reverse

/-- Python `s.split(sep)` for a single-character separator:
`''.split('/') = ['']`, and every separator occurrence opens a new field. -/
def pySplit (sep : Char) : PStr → List PStr
  | [] => [[]]
  | c :: rest =>
    let r := pySplit sep rest
    if c = sep then [] :: r
    else
      match r with
      | [] => [[c]]
      | h :: t => (c :: h) :: t

/-- Python `'/'.join(parts)`. -/
def joinSlash (parts : List PStr) : PStr := List.intercalate ['/'] parts

/-- Python `sep.join(parts)` for a single-character separator. -/
def joinWith (sep : Char) (parts : List PStr) : PStr := List.intercalate [sep] parts

/-- Lookup in a Python dict modelled as an ordered association list. -/
def dictGet {α : Type} (m : List (PStr × α)) (k : PStr) : Option α :=
  (m.find? (fun p => p.1 == k)).map Prod.snd

/-- Python dict assignment `m[k] = v`: overwrite in place if the key exists
(keeping its original position), otherwise append at the end.  Keys are unique
in any list built through `dictSet`, so replacing the first occurrence is
observably identical to Python's dict update. -/
def dictSet {α : Type} (m : List (PStr × α)) (k : PStr) (v : α) : List (PStr × α) :=
  match m with
  | [] => [(k, v)]
  | p :: rest => if p.1 == k then (k, v) :: rest else p :: dictSet rest k v

/-- Python `k in m` for a dict. -/
def dictHas {α : Type} (m : List (PStr × α)) (k : PStr) : Bool :=
  m.any (fun p => p.1 == k)

/-- Python set membership for a set modelled as a duplicate-free list. -/
def pyMem (x : PStr) (s : List PStr) : Bool := s.contains x

/-- Python `s.add(x)` on a set. -/
def setAdd (s : List PStr) (x : PStr) : List PStr := if pyMem x s then s else x :: s

theorem dictGet_cons {α : Type} (p : PStr × α) (m : List (PStr × α)) (k : PStr) :
    dictGet (p :: m) k = if p.1 = k then some p.2 else dictGet m k := by
  by_cases h : p.1 = k
  · rw [if_pos h]
    simp [dictGet, List.find?_cons_of_pos, h]
  · rw [if_neg h]
    have hb : (p.1 == k) = false := by simp [h]
    simp [dictGet, List.find?_cons_of_neg, hb]

theorem dictGet_dictSet_self {α : Type} (m : List (PStr × α)) (k : PStr) (v : α) :
    dictGet (dictSet m k v) k = some v := by
  induction m with
  | nil => simp [dictSet, dictGet_cons]
  | cons p rest ih =>
    by_cases h : p.1 = k
    · simp [dictSet, h, dictGet_cons]
    · have hb : (p.1 == k) = false := by simp [h]
      simp [dictSet, hb, dictGet_cons, h, ih]

theorem dictGet_dictSet_ne {α : Type} (m : List (PStr × α)) (k k' : PStr) (v : α)
    (hne : k' ≠ k) : dictGet (dictSet m k v) k' = dictGet m k' := by
  have hkk' : k ≠ k' := fun hc => hne hc.symm
  induction m with
  | nil => simp [dictSet, dictGet_cons, hkk', dictGet]
  | cons p rest ih =>
    by_cases h : p.1 = k
    · have hpk' : p.1 ≠ k' := by rw [h]; exact hkk'
      simp [dictSet, h, dictGet_cons, hkk', hpk']
    · have hb : (p.1 == k) = false := by simp [h]
      by_cases hp : p.1 = k'
      · simp [dictSet, hb, dictGet_cons, hp, hne, h]
      · simp [dictSet, hb, dictGet_cons, hp, ih, hne, h]

theorem dictGet_dictSet {α : Type} (m : List (PStr × α)) (k k' : PStr) (v : α) :
    dictGet (dictSet m k v) k' = if k' = k then some v else dictGet m k' := by
  by_cases h : k' = k
  · rw [if_pos h, h]; exact dictGet_dictSet_self m k v
  · rw [if_neg h]; exact dictGet_dictSet_ne m k k' v h

/-! ### Backup entry data model (android_backup_parser.py / ios_backup_parser.py) -/

/-- `AndroidBackupFile` from android_backup_parser.py.  `modified_time` is kept
abstract as an optional natural (seconds); it plays no role in any logic. -/
structure AndroidBackupFile where
  file_id : PStr
  domain : PStr
  relative_path : PStr
  file_size : Nat
  mode : Nat
  modified_time : Option Nat
  flags : Nat
  actual_file_size : Option Nat
  token : PStr
deriving Repr, DecidableEq

/-- `AndroidBackupFile.is_directory`: only the mode file-type bits are consulted. -/
def AndroidBackupFile.is_directory (f : AndroidBackupFile) : Bool :=
  if Nat.land f.mode 0o170000 == 0o040000 then true else false

/-- `AndroidBackupFile.full_domain_path`. -/
def AndroidBackupFile.full_domain_path (f : AndroidBackupFile) : PStr :=
  if f.relative_path.isEmpty then f.domain else f.domain ++ '/' :: f.relative_path

/-- `BackupFile` from ios_backup_parser.py. -/
structure BackupFile where
  file_id : PStr
  domain : PStr
  relative_path : PStr
  file_size : Nat
  mode : Nat
  modified_time : Option Nat
  flags : Nat
  actual_file_size : Option Nat
deriving Repr, DecidableEq

/-- `BackupFile.is_directory`: mode bits first, then the flags fallback,
then the empty-id/zero-size/zero-mode fallback. -/
def BackupFile.is_directory (f : BackupFile) : Bool :=
  if Nat.land f.mode 0o170000 == 0o040000 then true
  else if f.flags == 2 then true
  else if f.mode == 0 && f.file_size == 0 && f.file_id.isEmpty then true
  else false

/-- `BackupFile.full_domain_path`. -/
def BackupFile.full_domain_path (f : BackupFile) : PStr :=
  if f.relative_path.isEmpty then f.domain else f.domain ++ '/' :: f.relative_path

/-! ### Token tables and the tar path grammar (android_backup_parser.py) -/

/-- `UNMAPPABLE_TOKENS` from android_backup_parser.py. -/
def UNMAPPABLE_TOKENS : List PStr := [pstr "_manifest", pstr "k"]

/-- `TOKEN_PATH_MAPPINGS` from android_backup_parser.py. -/
def TOKEN_PATH_MAPPINGS : List (PStr × PStr) :=
  [ (pstr "a",    pstr "/data/app/{package}/"),
    (pstr "r",    pstr "/data/data/{package}/"),
    (pstr "f",    pstr "/data/data/{package}/files/"),
    (pstr "db",   pstr "/data/data/{package}/databases/"),
    (pstr "sp",   pstr "/data/data/{package}/shared_prefs/"),
    (pstr "c",    pstr "/data/data/{package}/cache/"),
    (pstr "nb",   pstr "/data/data/{package}/no_backup/"),
    (pstr "ef",   pstr "/storage/emulated/0/Android/data/{package}/files/"),
    (pstr "obb",  pstr "/storage/emulated/0/Android/obb/{package}/"),
    (pstr "d_r",  pstr "/data/user_de/0/{package}/"),
    (pstr "d_f",  pstr "/data/user_de/0/{package}/files/"),
    (pstr "d_db", pstr "/data/user_de/0/{package}/databases/"),
    (pstr "d_sp", pstr "/data/user_de/0/{package}/shared_prefs/"),
    (pstr "d_c",  pstr "/data/user_de/0/{package}/cache/"),
    (pstr "d_nb", pstr "/data/user_de/0/{package}/no_backup/") ]

/-- `KNOWN_TOKENS` from android_backup_parser.py. -/
def KNOWN_TOKENS : List PStr := TOKEN_PATH_MAPPINGS.map Prod.fst ++ UNMAPPABLE_TOKENS

/-- `parse_tar_path` (the `AndroidBackupParser._parse_tar_path` staticmethod):
split a tar member name into `(domain, token, relative_path)`.
`parts` is never empty (Python `split` always yields at least one field), so the
`parts[0]` and `parts[1]` subscripts are modelled with `headD`/`getD`. -/
def parse_tar_path (member_name : PStr) : PStr × PStr × PStr :=
  let parts := pySplit '/' (pyStrip (pstr "./") member_name)
  if parts.headD [] = pstr "apps" ∧ 2 ≤ parts.length then
    let package_name := parts.getD 1 []
    if 3 ≤ parts.length then
      let potential_token := parts.getD 2 []
      if KNOWN_TOKENS.contains potential_token then
        (package_name, potential_token, joinSlash (parts.drop 2))
      else
        (package_name, potential_token, joinSlash (parts.drop 2))
    else
      (package_name, [], [])
  else if parts.headD [] = pstr "shared" ∧ 2 ≤ parts.length then
    let domain := pstr "shared/" ++ parts.getD 1 []
    let relative_path := if 2 < parts.length then joinSlash (parts.drop 2) else []
    (domain, [], relative_path)
  else
    (parts.headD [], [], if 1 < parts.length then joinSlash (parts.drop 1) else [])

/-! ### The parsing log (ios_backup_parser.py) -/

/-- `ParsingLogEntry` from ios_backup_parser.py. -/
structure ParsingLogEntry where
  file_id : PStr
  domain : PStr
  relative_path : PStr
  status : PStr
  details : PStr
  manifest_size : Nat
  actual_size : Option Nat
deriving Repr, DecidableEq

/-- `ParsingLog` from ios_backup_parser.py.  `update_actual_size` mutates log
entries in place through the by-id alias table and is not modelled here; the
claims below only concern logs built through `add_entry`. -/
structure ParsingLog where
  timestamp : PStr
  total_rows : Nat
  files_added : Nat
  directories_added : Nat
  skipped_no_content : Nat
  errors : Nat
  size_mismatches : Nat
  manifest_size_zero : Nat
  entries : List ParsingLogEntry
  entry_by_file_id : List (PStr × ParsingLogEntry)
deriving Repr, DecidableEq

/-- The freshly constructed `ParsingLog()`. -/
def ParsingLog.empty : ParsingLog :=
  { timestamp := [], total_rows := 0, files_added := 0, directories_added := 0,
    skipped_no_content := 0, errors := 0, size_mismatches := 0,
    manifest_size_zero := 0, entries := [], entry_by_file_id := [] }

/-- `ParsingLog.add_entry`: append the entry, register it by id when the id is
non-empty, and bump the counter matching the status (the four `elif` branches
compare against pairwise-distinct literals, so independent conditionals are
equivalent). -/
def ParsingLog.add_entry (log : ParsingLog) (file_id domain relative_path status details : PStr)
    (manifest_size : Nat) : ParsingLog :=
  let entry : ParsingLogEntry :=
    { file_id := file_id, domain := domain, relative_path := relative_path,
      status := status, details := details, manifest_size := manifest_size,
      actual_size := none }
  { log with
    entries := log.entries ++ [entry]
    entry_by_file_id :=
      if file_id.isEmpty then log.entry_by_file_id
      else dictSet log.entry_by_file_id file_id entry
    files_added :=
      if status = pstr "added_file" then log.files_added + 1 else log.files_added
    directories_added :=
      if status = pstr "added_directory" then log.directories_added + 1
      else log.directories_added
    skipped_no_content :=
      if status = pstr "skipped_no_content" then log.skipped_no_content + 1
      else log.skipped_no_content
    errors :=
      if status = pstr "error" then log.errors + 1 else log.errors }

/-- One recorded `add_entry` call. -/
structure AddEntryCall where
  file_id : PStr
  domain : PStr
  relative_path : PStr
  status : PStr
  details : PStr
  manifest_size : Nat
deriving Repr, DecidableEq

/-- Replay a sequence of `add_entry` calls against a log. -/
def ParsingLog.addAll (log : ParsingLog) (calls : List AddEntryCall) : ParsingLog :=
  calls.foldl
    (fun l c => l.add_entry c.file_id c.domain c.relative_path c.status c.details c.manifest_size)
    log

/-- Number of entries carrying a given status. -/
def countStatus (s : PStr) (entries : List ParsingLogEntry) : Nat :=
  (entries.filter (fun e => e.status == s)).length

/-! ### Claim C1: the is_directory signal order -/

theorem pyStrip_cons_of_mem (chars : PStr) (c : Char) (s : PStr)
    (h : stripPred chars c = true) :
    pyStrip chars (c :: s) = pyStrip chars s := by
  unfold pyStrip
  rw [List.dropWhile_cons, if_pos h]

/-- Claim C1, counterexample: an `AndroidBackupFile` with `mode = 0` and
`flags = 2` has `is_directory = false`, while the claim requires it to be
`true` (the flags fallback exists only on the iOS `BackupFile`). -/
theorem android_is_directory_ignores_flags :
    ({ file_id := pstr "apps/com.example/r/dir", domain := pstr "com.example",
       relative_path := pstr "r/dir", file_size := 0, mode := 0,
       modified_time := none, flags := 2, actual_file_size := none,
       token := pstr "r" } : AndroidBackupFile).is_directory = false := by decide

/-- Claim C1, amended: the three-signal order (mode bits, then `flags == 2`,
then the zero-mode fallback) is the iOS `BackupFile.is_directory` behaviour;
`AndroidBackupFile.is_directory` consults only the mode file-type bits, so for
it mode `0` yields `false` regardless of flags. -/
theorem is_directory_signal_order :
    (∀ f : AndroidBackupFile, Nat.land f.mode 0o170000 = 0o040000 → f.is_directory = true)
  ∧ (∀ f : AndroidBackupFile, f.mode = 0 → f.is_directory = false)
  ∧ (∀ f : BackupFile, Nat.land f.mode 0o170000 = 0o040000 → f.is_directory = true)
  ∧ (∀ f : BackupFile, f.mode = 0 → f.flags = 2 → f.is_directory = true)
  ∧ (∀ f : BackupFile, f.mode = 0 → f.flags = 0 → f.file_id ≠ [] →
      f.is_directory = false) := by
  refine ⟨?_, ?_, ?_, ?_, ?_⟩
  · intro f h
    simp [AndroidBackupFile.is_directory, h]
  · intro f h
    simp only [AndroidBackupFile.is_directory]
    rw [h]
    decide
  · intro f h
    simp [BackupFile.is_directory, h]
  · intro f h1 h2
    simp only [BackupFile.is_directory]
    rw [h1, h2]
    simp
  · intro f h1 h2 h3
    cases hfi : f.file_id with
    | nil => exact absurd hfi h3
    | cons a l =>
      simp only [BackupFile.is_directory]
      rw [h1, h2, hfi]
      simp

/-- Claim C1, witness: the amended theorem applied at concrete entries. -/
theorem is_directory_signal_order_witness :
    ({ file_id := pstr "id", domain := pstr "pkg", relative_path := pstr "dir",
       file_size := 0, mode := 0o040755, modified_time := none, flags := 0,
       actual_file_size := none, token := pstr "r" } : AndroidBackupFile).is_directory = true
  ∧ ({ file_id := pstr "id", domain := pstr "pkg", relative_path := pstr "dir",
       file_size := 0, mode := 0, modified_time := none, flags := 2,
       actual_file_size := none, token := pstr "r" } : AndroidBackupFile).is_directory = false
  ∧ ({ file_id := pstr "abc", domain := pstr "HomeDomain", relative_path := pstr "Library",
       file_size := 0, mode := 0o040755, modified_time := none, flags := 2,
       actual_file_size := none } : BackupFile).is_directory = true
  ∧ ({ file_id := pstr "abc", domain := pstr "HomeDomain", relative_path := pstr "Library",
       file_size := 0, mode := 0, modified_time := none, flags := 2,
       actual_file_size := none } : BackupFile).is_directory = true
  ∧ ({ file_id := pstr "abc", domain := pstr "HomeDomain", relative_path := pstr "f.db",
       file_size := 0, mode := 0, modified_time := none, flags := 0,
       actual_file_size := none } : BackupFile).is_directory = false :=
  ⟨is_directory_signal_order.1 _ (by decide),
   is_directory_signal_order.2.1 _ rfl,
   is_directory_signal_order.2.2.1 _ (by decide),
   is_directory_signal_order.2.2.2.1 _ rfl rfl,
   is_directory_signal_order.2.2.2.2 _ rfl rfl (by decide)⟩

/-! ### Claim C9: parse_tar_path is pure and insensitive to a leading "./" -/

theorem pyStrip_dotslash (m : PStr) :
    pyStrip (pstr "./") (pstr "./" ++ m) = pyStrip (pstr "./") m := by
  have hds : pstr "./" ++ m = '.' :: '/' :: m := rfl
  rw [hds, pyStrip_cons_of_mem _ _ _ (by decide), pyStrip_cons_of_mem _ _ _ (by decide)]

/-- Claim C9: `parse_tar_path` is a pure function — two invocations on the
same member name agree — and prepending `"./"` to a member name that does not
already start with `"/"` leaves the result unchanged. -/
theorem parse_tar_path_pure_dotslash (m : PStr)
    (h : startsWith m (pstr "/") = false) :
    parse_tar_path m = parse_tar_path m ∧
      parse_tar_path (pstr "./" ++ m) = parse_tar_path m := by
  refine ⟨rfl, ?_⟩
  simp only [parse_tar_path, pyStrip_dotslash]

/-- Claim C9, witness: the theorem applied at a concrete member name. -/
theorem parse_tar_path_pure_dotslash_witness :
    startsWith (pstr "apps/com.example/db/data.db") (pstr "/") = false
  ∧ (parse_tar_path (pstr "apps/com.example/db/data.db")
       = parse_tar_path (pstr "apps/com.example/db/data.db")
     ∧ parse_tar_path (pstr "./" ++ pstr "apps/com.example/db/data.db")
       = parse_tar_path (pstr "apps/com.example/db/data.db")) :=
  ⟨by decide, parse_tar_path_pure_dotslash (pstr "apps/com.example/db/data.db") (by decide)⟩

/-! ### Claim C5: parsing-log counters versus entry statuses -/

theorem countStatus_append (s : PStr) (es : List ParsingLogEntry) (e : ParsingLogEntry) :
    countStatus s (es ++ [e]) = countStatus s es + (if e.status = s then 1 else 0) := by
  by_cases h : e.status = s <;> simp [countStatus, List.filter_append, h]

/-- The four status-linked counters agree with the entry list. -/
def LogCountersOk (log : ParsingLog) : Prop :=
  log.files_added = countStatus (pstr "added_file") log.entries
  ∧ log.directories_added = countStatus (pstr "added_directory") log.entries
  ∧ log.skipped_no_content = countStatus (pstr "skipped_no_content") log.entries
  ∧ log.errors = countStatus (pstr "error") log.entries

theorem LogCountersOk.add_entry {log : ParsingLog} (h : LogCountersOk log)
    (fid dom rel status det : PStr) (ms : Nat) :
    LogCountersOk (log.add_entry fid dom rel status det ms) := by
  obtain ⟨h1, h2, h3, h4⟩ := h
  refine ⟨?_, ?_, ?_, ?_⟩ <;>
    simp only [ParsingLog.add_entry, countStatus_append, h1, h2, h3, h4] <;>
    split <;> simp_all

theorem addAll_counters (calls : List AddEntryCall) (log : ParsingLog)
    (h : LogCountersOk log) :
    LogCountersOk (log.addAll calls)
    ∧ (log.addAll calls).size_mismatches = log.size_mismatches
    ∧ (log.addAll calls).manifest_size_zero = log.manifest_size_zero := by
  induction calls generalizing log with
  | nil => exact ⟨h, rfl, rfl⟩
  | cons c cs ih =>
    have step : log.addAll (c :: cs)
        = (log.add_entry c.file_id c.domain c.relative_path c.status c.details
            c.manifest_size).addAll cs := rfl
    rw [step]
    obtain ⟨hok, hsm, hmz⟩ :=
      ih (log.add_entry c.file_id c.domain c.relative_path c.status c.details c.manifest_size)
        (h.add_entry c.file_id c.domain c.relative_path c.status c.details c.manifest_size)
    exact ⟨hok, hsm, hmz⟩

/-- Claim C5, counterexample: one `add_entry` call with status
`'size_mismatch'` leaves the `size_mismatches` counter at `0` although the
log then holds one entry with that status (that counter is driven by
`update_actual_size`, not by entry statuses). -/
theorem parsingLog_size_mismatch_status_uncounted :
    (ParsingLog.empty.add_entry (pstr "f1") (pstr "HomeDomain") (pstr "a/b")
        (pstr "size_mismatch") [] 0).size_mismatches = 0
  ∧ countStatus (pstr "size_mismatch")
      (ParsingLog.empty.add_entry (pstr "f1") (pstr "HomeDomain") (pstr "a/b")
        (pstr "size_mismatch") [] 0).entries = 1 := by decide

/-- Claim C5, amended: for a log built by any sequence of `add_entry` calls,
each of the four status-linked counters (`files_added`, `directories_added`,
`skipped_no_content`, `errors`) equals the number of entries with the
corresponding status, while `size_mismatches` and `manifest_size_zero` stay at
`0` (they are maintained by `update_actual_size`, not keyed to any entry
status). -/
theorem parsingLog_counters_match_statuses (calls : List AddEntryCall) :
    (ParsingLog.empty.addAll calls).files_added
      = countStatus (pstr "added_file") (ParsingLog.empty.addAll calls).entries
  ∧ (ParsingLog.empty.addAll calls).directories_added
      = countStatus (pstr "added_directory") (ParsingLog.empty.addAll calls).entries
  ∧ (ParsingLog.empty.addAll calls).skipped_no_content
      = countStatus (pstr "skipped_no_content") (ParsingLog.empty.addAll calls).entries
  ∧ (ParsingLog.empty.addAll calls).errors
      = countStatus (pstr "error") (ParsingLog.empty.addAll calls).entries
  ∧ (ParsingLog.empty.addAll calls).size_mismatches = 0
  ∧ (ParsingLog.empty.addAll calls).manifest_size_zero = 0 := by
  obtain ⟨⟨h1, h2, h3, h4⟩, hsm, hmz⟩ :=
    addAll_counters calls ParsingLog.empty ⟨rfl, rfl, rfl, rfl⟩
  exact ⟨h1, h2, h3, h4, hsm, hmz⟩

/-! ### Filesystem acquisitions (filesystem_loader.py) -/

/-- `FilesystemFile` from filesystem_loader.py. -/
structure FilesystemFile where
  path : PStr
  size : Nat
  is_directory : Bool
  modified_time : Option Nat
  platform : PStr
deriving Repr, DecidableEq

/-- `FilesystemFile.normalized_path`: the Android arm strips a leading `./`
and ensures a leading `/`; the arm for every other platform value is the iOS
`/private` canonicalisation chain. -/
def FilesystemFile.normalized_path (f : FilesystemFile) : PStr :=
  if f.platform = pstr "android" then
    let path := if startsWith f.path (pstr "./") then f.path.drop 1 else f.path
    if startsWith path (pstr "/") then path else '/' :: path
  else
    if startsWith f.path (pstr "/private/") then f.path
    else if startsWith f.path (pstr "./private/") then f.path.drop 1
    else if startsWith f.path (pstr "private/") then '/' :: f.path
    else if startsWith f.path (pstr "./") then pstr "/private" ++ f.path.drop 1
    else if startsWith f.path (pstr "/") = false then pstr "/private/" ++ f.path
    else f.path

/-- The `_file_index` dict: normalized path spelling to entry. -/
abbrev FsIndex := List (PStr × FilesystemFile)

/-- One iteration of `FilesystemAcquisition.build_index`: index the entry
under its normalized path and under every platform alias spelling.
The numeric `drop` counts are the lengths of the stripped literals
(`/private` = 8, `/data/data/` = 11, `/data/user/0/` = 13, `/data/media/0/`
= 14, `/storage/emulated/0/` = 20, `/sdcard/` = 8). -/
def build_index_insert (platform : PStr) (idx : FsIndex) (f : FilesystemFile) : FsIndex :=
  let np := f.normalized_path
  let idx := dictSet idx np f
  if platform = pstr "ios" then
    if startsWith np (pstr "/private/") then dictSet idx (np.drop 8) f else idx
  else if platform = pstr "android" then
    let idx :=
      if startsWith np (pstr "/data/data/") then
        dictSet idx (pstr "/data/user/0/" ++ np.drop 11) f
      else if startsWith np (pstr "/data/user/0/") then
        dictSet idx (pstr "/data/data/" ++ np.drop 13) f
      else idx
    if startsWith np (pstr "/data/media/0/") then
      dictSet (dictSet idx (pstr "/storage/emulated/0/" ++ np.drop 14) f)
        (pstr "/sdcard/" ++ np.drop 14) f
    else if startsWith np (pstr "/storage/emulated/0/") then
      dictSet (dictSet idx (pstr "/data/media/0/" ++ np.drop 20) f)
        (pstr "/sdcard/" ++ np.drop 20) f
    else if startsWith np (pstr "/sdcard/") then
      dictSet (dictSet idx (pstr "/storage/emulated/0/" ++ np.drop 8) f)
        (pstr "/data/media/0/" ++ np.drop 8) f
    else idx
  else idx

/-- `FilesystemAcquisition.build_index`: reset the index and insert every file. -/
def build_file_index (platform : PStr) (files : List FilesystemFile) : FsIndex :=
  files.foldl (build_index_insert platform) []

/-- `FilesystemAcquisition` from filesystem_loader.py (the content-bearing
archive handle is not part of the value model). -/
structure FilesystemAcquisition where
  path : PStr
  format : PStr
  platform : PStr
  files : List FilesystemFile
  file_index : FsIndex
  app_container_mapping : List (PStr × PStr)
  group_container_mapping : List (PStr × PStr)
  plugin_container_mapping : List (PStr × PStr)
  system_container_mapping : List (PStr × PStr)
  system_group_mapping : List (PStr × PStr)
  container_mapping : List (PStr × PStr)
deriving Repr, DecidableEq

/-- `FilesystemAcquisition.build_index` as a state update. -/
def FilesystemAcquisition.build_index (a : FilesystemAcquisition) : FilesystemAcquisition :=
  { a with file_index := build_file_index a.platform a.files }

/-- `FilesystemAcquisition.find_file`: rebuild the index when it is empty, try
a direct hit, then the platform-specific fallback spelling. -/
def FilesystemAcquisition.find_file (a : FilesystemAcquisition) (path : PStr) :
    Option FilesystemFile :=
  let idx := if a.file_index.isEmpty then build_file_index a.platform a.files
             else a.file_index
  match dictGet idx path with
  | some f => some f
  | none =>
    if a.platform = pstr "ios" then
      let normalized :=
        if startsWith path (pstr "/private/") then path
        else if startsWith path (pstr "/") then pstr "/private" ++ path
        else pstr "/private/" ++ path
      dictGet idx normalized
    else
      if startsWith path (pstr "/") = false then dictGet idx ('/' :: path)
      else none

/-! ### Prefix reasoning helpers -/

theorem startsWith_append (a s : PStr) : startsWith (a ++ s) a = true := by
  simp [startsWith, List.isPrefixOf_iff_prefix, List.prefix_append]

theorem startsWith_true_iff (s p : PStr) : startsWith s p = true ↔ p <+: s := by
  simp [startsWith, List.isPrefixOf_iff_prefix]

theorem startsWith_false_iff (s p : PStr) : startsWith s p = false ↔ ¬ p <+: s := by
  rw [← startsWith_true_iff]
  cases startsWith s p <;> simp

theorem startsWith_append_false (a b s : PStr) (h1 : ¬ b <+: a) (h2 : ¬ a <+: b) :
    startsWith (a ++ s) b = false := by
  rw [startsWith_false_iff]
  intro hb
  rcases List.prefix_or_prefix_of_prefix hb (List.prefix_append a s) with hc | hc
  exacts [h1 hc, h2 hc]

theorem ne_append_append (a b : PStr) (hab : ¬ a <+: b) (hba : ¬ b <+: a)
    (s t : PStr) : a ++ s ≠ b ++ t := by
  intro h
  have h1 : a <+: b ++ t := h ▸ List.prefix_append a s
  rcases List.prefix_or_prefix_of_prefix h1 (List.prefix_append b t) with hc | hc
  exacts [hab hc, hba hc]

theorem startsWith_append_drop (s p : PStr) (h : startsWith s p = true) :
    p ++ s.drop p.length = s := by
  obtain ⟨t, ht⟩ := (startsWith_true_iff s p).1 h
  rw [← ht, List.drop_left]

theorem startsWith_of_startsWith_append (a b s : PStr) (hba : b <+: a)
    (h : startsWith s a = true) : startsWith s b = true := by
  rw [startsWith_true_iff] at h ⊢
  exact hba.trans h

theorem startsWith_false_of_le (s a b : PStr) (hba : b <+: a)
    (h : startsWith s b = false) : startsWith s a = false := by
  rw [startsWith_false_iff] at h ⊢
  exact fun hc => h (hba.trans hc)

theorem startsWith_append_cancel (a s b : PStr) :
    startsWith (a ++ s) (a ++ b) = startsWith s b := by
  rcases h : startsWith s b with _ | _
  · rw [startsWith_false_iff] at h ⊢
    intro hc
    obtain ⟨t, ht⟩ := hc
    rw [List.append_assoc] at ht
    exact h ⟨t, List.append_cancel_left ht⟩
  · rw [startsWith_true_iff] at h ⊢
    obtain ⟨t, ht⟩ := h
    exact ⟨t, by rw [List.append_assoc, ht]⟩

/-! ### Claim C4: iOS normalized_path canonicalisation -/

/-- Claim C4, counterexample: for an iOS entry with the bare absolute path
`/var/mobile/file.txt`, `normalized_path` returns the path unchanged — no
`/private` prefix is added to absolute paths outside `/private/`. -/
theorem normalized_path_bare_var_unchanged :
    ({ path := pstr "/var/mobile/file.txt", size := 100, is_directory := false,
       modified_time := none, platform := pstr "ios" } : FilesystemFile).normalized_path
      = pstr "/var/mobile/file.txt"
  ∧ ({ path := pstr "/var/mobile/file.txt", size := 100, is_directory := false,
       modified_time := none, platform := pstr "ios" } : FilesystemFile).normalized_path
      ≠ pstr "/private/var/mobile/file.txt" := by decide

/-- An iOS-platform `FilesystemFile` with the given path and metadata. -/
def iosFsFile (p : PStr) (sz : Nat) (dir : Bool) (mt : Option Nat) : FilesystemFile :=
  { path := p, size := sz, is_directory := dir, modified_time := mt, platform := pstr "ios" }

/-- Claim C4, amended: for iOS entries, paths already under `/private/` are
kept; `./private/...`, `private/...`, `./...` and bare relative paths are all
canonicalised into the `/private/...` form; but an absolute path not under
`/private/` (such as a bare `/var/...` path) is returned unchanged — the
`/private` form for those is only tried later, inside `find_file`. -/
theorem normalized_path_ios_cases (sz : Nat) (dir : Bool) (mt : Option Nat) :
    (∀ s, (iosFsFile (pstr "/private/" ++ s) sz dir mt).normalized_path
        = pstr "/private/" ++ s)
  ∧ (∀ s, (iosFsFile (pstr "./private/" ++ s) sz dir mt).normalized_path
        = pstr "/private/" ++ s)
  ∧ (∀ s, (iosFsFile (pstr "private/" ++ s) sz dir mt).normalized_path
        = pstr "/private/" ++ s)
  ∧ (∀ s, startsWith s (pstr "private/") = false →
      (iosFsFile (pstr "./" ++ s) sz dir mt).normalized_path = pstr "/private/" ++ s)
  ∧ (∀ s, startsWith s (pstr "/") = false → startsWith s (pstr "private/") = false →
      startsWith s (pstr "./") = false →
      (iosFsFile s sz dir mt).normalized_path = pstr "/private/" ++ s)
  ∧ (∀ s, startsWith (pstr "/" ++ s) (pstr "/private/") = false →
      (iosFsFile (pstr "/" ++ s) sz dir mt).normalized_path = pstr "/" ++ s) := by
  have hplat : (pstr "ios" = pstr "android") = False := by simp [pstr]
  refine ⟨?_, ?_, ?_, ?_, ?_, ?_⟩
  · intro s
    simp only [iosFsFile, FilesystemFile.normalized_path, hplat, if_false,
      eq_self_iff_true, startsWith_append, if_true]
  · intro s
    have h1 : startsWith (pstr "./private/" ++ s) (pstr "/private/") = false :=
      startsWith_append_false _ _ _ (by decide) (by decide)
    have h2 : startsWith (pstr "./private/" ++ s) (pstr "./private/") = true :=
      startsWith_append _ _
    simp only [iosFsFile, FilesystemFile.normalized_path, hplat, if_false, h1, h2, if_true,
      Bool.false_eq_true]
    rfl
  · intro s
    have h1 : startsWith (pstr "private/" ++ s) (pstr "/private/") = false :=
      startsWith_append_false _ _ _ (by decide) (by decide)
    have h2 : startsWith (pstr "private/" ++ s) (pstr "./private/") = false :=
      startsWith_append_false _ _ _ (by decide) (by decide)
    have h3 : startsWith (pstr "private/" ++ s) (pstr "private/") = true :=
      startsWith_append _ _
    simp only [iosFsFile, FilesystemFile.normalized_path, hplat, if_false, h1, h2, h3, if_true,
      Bool.false_eq_true]
    rfl
  · intro s hs
    have h1 : startsWith (pstr "./" ++ s) (pstr "/private/") = false :=
      startsWith_append_false _ _ _ (by decide) (by decide)
    have h2 : startsWith (pstr "./" ++ s) (pstr "./private/") = false := by
      have : pstr "./private/" = pstr "./" ++ pstr "private/" := rfl
      rw [this, startsWith_append_cancel]
      exact hs
    have h3 : startsWith (pstr "./" ++ s) (pstr "private/") = false :=
      startsWith_append_false _ _ _ (by decide) (by decide)
    have h4 : startsWith (pstr "./" ++ s) (pstr "./") = true := startsWith_append _ _
    simp only [iosFsFile, FilesystemFile.normalized_path, hplat, if_false, h1, h2, h3, h4, if_true,
      Bool.false_eq_true]
    rfl
  · intro s h1 h2 h3
    have hp1 : startsWith s (pstr "/private/") = false :=
      startsWith_false_of_le _ _ _ ⟨pstr "private/", rfl⟩ h1
    have hp2 : startsWith s (pstr "./private/") = false :=
      startsWith_false_of_le _ _ _ ⟨pstr "private/", rfl⟩ h3
    simp only [iosFsFile, FilesystemFile.normalized_path, hplat, if_false, hp1, hp2, h2, h3, h1,
      Bool.false_eq_true, if_true]
  · intro s h1
    have h2 : startsWith (pstr "/" ++ s) (pstr "./private/") = false :=
      startsWith_append_false _ _ _ (by decide) (by decide)
    have h3 : startsWith (pstr "/" ++ s) (pstr "private/") = false :=
      startsWith_append_false _ _ _ (by decide) (by decide)
    have h4 : startsWith (pstr "/" ++ s) (pstr "./") = false :=
      startsWith_append_false _ _ _ (by decide) (by decide)
    have h5 : startsWith (pstr "/" ++ s) (pstr "/") = true := startsWith_append _ _
    simp only [iosFsFile, FilesystemFile.normalized_path, hplat, if_false, h1, h2, h3, h4, h5,
      Bool.false_eq_true, if_true]
    simp

/-- Claim C4, witness: the amended theorem applied at concrete paths. -/
theorem normalized_path_ios_cases_witness :
    ({ path := pstr "/private/var/a.txt", size := 1, is_directory := false,
        modified_time := none, platform := pstr "ios" } : FilesystemFile).normalized_path
      = pstr "/private/" ++ pstr "var/a.txt"
  ∧ ({ path := pstr "./var/a.txt", size := 1, is_directory := false,
        modified_time := none, platform := pstr "ios" } : FilesystemFile).normalized_path
      = pstr "/private/" ++ pstr "var/a.txt"
  ∧ ({ path := pstr "var/a.txt", size := 1, is_directory := false,
        modified_time := none, platform := pstr "ios" } : FilesystemFile).normalized_path
      = pstr "/private/" ++ pstr "var/a.txt"
  ∧ ({ path := pstr "/var/a.txt", size := 1, is_directory := false,
        modified_time := none, platform := pstr "ios" } : FilesystemFile).normalized_path
      = pstr "/" ++ pstr "var/a.txt" := by
  have h := normalized_path_ios_cases 1 false none
  exact ⟨by have := h.1 (pstr "var/a.txt"); simpa using this,
         by have := h.2.2.2.1 (pstr "var/a.txt") (by decide); simpa using this,
         by have := h.2.2.2.2.1 (pstr "var/a.txt") (by decide) (by decide) (by decide);
            simpa using this,
         by have := h.2.2.2.2.2 (pstr "var/a.txt") (by decide); simpa using this⟩

/-! ### Claim C6: Android alias index agreement -/

theorem dictGet_dictSet2 (idx : FsIndex) (k1 k2 k : PStr) (v : FilesystemFile) :
    dictGet (dictSet (dictSet idx k1 v) k2 v) k
      = if k = k2 ∨ k = k1 then some v else dictGet idx k := by
  rw [dictGet_dictSet, dictGet_dictSet]
  by_cases h2 : k = k2 <;> by_cases h1 : k = k1 <;> simp [h1, h2]

theorem dictGet_dictSet3 (idx : FsIndex) (k1 k2 k3 k : PStr) (v : FilesystemFile) :
    dictGet (dictSet (dictSet (dictSet idx k1 v) k2 v) k3 v) k
      = if k = k3 ∨ k = k2 ∨ k = k1 then some v else dictGet idx k := by
  rw [dictGet_dictSet, dictGet_dictSet, dictGet_dictSet]
  by_cases h3 : k = k3 <;> by_cases h2 : k = k2 <;> by_cases h1 : k = k1 <;>
    simp [h1, h2, h3]

/-- The Android alias spellings agree in the index: every `/data/data/` key
agrees with its `/data/user/0/` twin, and the three shared-storage spellings
agree pairwise. -/
def IndexAliasOk (idx : FsIndex) : Prop :=
  ∀ s : PStr,
    dictGet idx (pstr "/data/data/" ++ s) = dictGet idx (pstr "/data/user/0/" ++ s)
    ∧ dictGet idx (pstr "/data/media/0/" ++ s)
        = dictGet idx (pstr "/storage/emulated/0/" ++ s)
    ∧ dictGet idx (pstr "/data/media/0/" ++ s) = dictGet idx (pstr "/sdcard/" ++ s)

theorem build_index_insert_alias (idx : FsIndex) (f : FilesystemFile)
    (h : IndexAliasOk idx) :
    IndexAliasOk (build_index_insert (pstr "android") idx f) := by
  have hp1 : (pstr "android" = pstr "ios") = False := by simp [pstr]
  have hp2 : (pstr "android" = pstr "android") = True := by simp
  intro s
  obtain ⟨e1, e2, e3⟩ := h s
  have e4 : dictGet idx (pstr "/storage/emulated/0/" ++ s)
      = dictGet idx (pstr "/sdcard/" ++ s) := e2.symm.trans e3
  simp only [build_index_insert, hp1, hp2, if_false, if_true]
  generalize f.normalized_path = np
  cases hdd : startsWith np (pstr "/data/data/") with
  | true =>
    obtain ⟨t, ht⟩ := (startsWith_true_iff np (pstr "/data/data/")).1 hdd
    subst ht
    have hdrop : (pstr "/data/data/" ++ t).drop 11 = t := by
      have hlen : (11 : Nat) = (pstr "/data/data/").length := rfl
      rw [hlen, List.drop_left]
    have hm : startsWith (pstr "/data/data/" ++ t) (pstr "/data/media/0/") = false :=
      startsWith_append_false _ _ _ (by decide) (by decide)
    have hsee : startsWith (pstr "/data/data/" ++ t) (pstr "/storage/emulated/0/") = false :=
      startsWith_append_false _ _ _ (by decide) (by decide)
    have hsdd : startsWith (pstr "/data/data/" ++ t) (pstr "/sdcard/") = false :=
      startsWith_append_false _ _ _ (by decide) (by decide)
    simp only [hdd, hm, hsee, hsdd, if_true, if_false, Bool.false_eq_true, hdrop,
      dictGet_dictSet2]
    have n1 : pstr "/data/data/" ++ s ≠ pstr "/data/user/0/" ++ t :=
      ne_append_append _ _ (by decide) (by decide) _ _
    have n2 : pstr "/data/user/0/" ++ s ≠ pstr "/data/data/" ++ t :=
      ne_append_append _ _ (by decide) (by decide) _ _
    have n3 : pstr "/data/media/0/" ++ s ≠ pstr "/data/data/" ++ t :=
      ne_append_append _ _ (by decide) (by decide) _ _
    have n4 : pstr "/data/media/0/" ++ s ≠ pstr "/data/user/0/" ++ t :=
      ne_append_append _ _ (by decide) (by decide) _ _
    have n5 : pstr "/storage/emulated/0/" ++ s ≠ pstr "/data/data/" ++ t :=
      ne_append_append _ _ (by decide) (by decide) _ _
    have n6 : pstr "/storage/emulated/0/" ++ s ≠ pstr "/data/user/0/" ++ t :=
      ne_append_append _ _ (by decide) (by decide) _ _
    have n7 : pstr "/sdcard/" ++ s ≠ pstr "/data/data/" ++ t :=
      ne_append_append _ _ (by decide) (by decide) _ _
    have n8 : pstr "/sdcard/" ++ s ≠ pstr "/data/user/0/" ++ t :=
      ne_append_append _ _ (by decide) (by decide) _ _
    by_cases hst : s = t
    · subst hst
      simp [n1, n2, n3, n4, n5, n6, n7, n8, e1, e2, e3, e4]
    · have m1 : ¬ (pstr "/data/data/" ++ s = pstr "/data/data/" ++ t) :=
        fun hc => hst (List.append_cancel_left hc)
      have m2 : ¬ (pstr "/data/user/0/" ++ s = pstr "/data/user/0/" ++ t) :=
        fun hc => hst (List.append_cancel_left hc)
      simp [n1, n2, n3, n4, n5, n6, n7, n8, m1, m2, e1, e2, e3, e4]
  | false =>
  cases hdu : startsWith np (pstr "/data/user/0/") with
  | true =>
    obtain ⟨t, ht⟩ := (startsWith_true_iff np (pstr "/data/user/0/")).1 hdu
    subst ht
    have hdrop : (pstr "/data/user/0/" ++ t).drop 13 = t := by
      have hlen : (13 : Nat) = (pstr "/data/user/0/").length := rfl
      rw [hlen, List.drop_left]
    have hm : startsWith (pstr "/data/user/0/" ++ t) (pstr "/data/media/0/") = false :=
      startsWith_append_false _ _ _ (by decide) (by decide)
    have hsee : startsWith (pstr "/data/user/0/" ++ t) (pstr "/storage/emulated/0/") = false :=
      startsWith_append_false _ _ _ (by decide) (by decide)
    have hsdd : startsWith (pstr "/data/user/0/" ++ t) (pstr "/sdcard/") = false :=
      startsWith_append_false _ _ _ (by decide) (by decide)
    simp only [hdd, hdu, hm, hsee, hsdd, if_true, if_false, Bool.false_eq_true, hdrop,
      dictGet_dictSet2]
    have n1 : pstr "/data/data/" ++ s ≠ pstr "/data/user/0/" ++ t :=
      ne_append_append _ _ (by decide) (by decide) _ _
    have n2 : pstr "/data/user/0/" ++ s ≠ pstr "/data/data/" ++ t :=
      ne_append_append _ _ (by decide) (by decide) _ _
    have n3 : pstr "/data/media/0/" ++ s ≠ pstr "/data/user/0/" ++ t :=
      ne_append_append _ _ (by decide) (by decide) _ _
    have n4 : pstr "/data/media/0/" ++ s ≠ pstr "/data/data/" ++ t :=
      ne_append_append _ _ (by decide) (by decide) _ _
    have n5 : pstr "/storage/emulated/0/" ++ s ≠ pstr "/data/user/0/" ++ t :=
      ne_append_append _ _ (by decide) (by decide) _ _
    have n6 : pstr "/storage/emulated/0/" ++ s ≠ pstr "/data/data/" ++ t :=
      ne_append_append _ _ (by decide) (by decide) _ _
    have n7 : pstr "/sdcard/" ++ s ≠ pstr "/data/user/0/" ++ t :=
      ne_append_append _ _ (by decide) (by decide) _ _
    have n8 : pstr "/sdcard/" ++ s ≠ pstr "/data/data/" ++ t :=
      ne_append_append _ _ (by decide) (by decide) _ _
    by_cases hst : s = t
    · subst hst
      simp [n1, n2, n3, n4, n5, n6, n7, n8, e1, e2, e3, e4]
    · have m1 : ¬ (pstr "/data/user/0/" ++ s = pstr "/data/user/0/" ++ t) :=
        fun hc => hst (List.append_cancel_left hc)
      have m2 : ¬ (pstr "/data/data/" ++ s = pstr "/data/data/" ++ t) :=
        fun hc => hst (List.append_cancel_left hc)
      simp [n1, n2, n3, n4, n5, n6, n7, n8, m1, m2, e1, e2, e3, e4]
  | false =>
  cases hdm : startsWith np (pstr "/data/media/0/") with
  | true =>
    obtain ⟨t, ht⟩ := (startsWith_true_iff np (pstr "/data/media/0/")).1 hdm
    subst ht
    have hdrop : (pstr "/data/media/0/" ++ t).drop 14 = t := by
      have hlen : (14 : Nat) = (pstr "/data/media/0/").length := rfl
      rw [hlen, List.drop_left]
    simp only [hdd, hdu, hdm, if_true, if_false, Bool.false_eq_true, hdrop,
      dictGet_dictSet3]
    have n1 : pstr "/data/data/" ++ s ≠ pstr "/data/media/0/" ++ t :=
      ne_append_append _ _ (by decide) (by decide) _ _
    have n2 : pstr "/data/data/" ++ s ≠ pstr "/storage/emulated/0/" ++ t :=
      ne_append_append _ _ (by decide) (by decide) _ _
    have n3 : pstr "/data/data/" ++ s ≠ pstr "/sdcard/" ++ t :=
      ne_append_append _ _ (by decide) (by decide) _ _
    have n4 : pstr "/data/user/0/" ++ s ≠ pstr "/data/media/0/" ++ t :=
      ne_append_append _ _ (by decide) (by decide) _ _
    have n5 : pstr "/data/user/0/" ++ s ≠ pstr "/storage/emulated/0/" ++ t :=
      ne_append_append _ _ (by decide) (by decide) _ _
    have n6 : pstr "/data/user/0/" ++ s ≠ pstr "/sdcard/" ++ t :=
      ne_append_append _ _ (by decide) (by decide) _ _
    have n7 : pstr "/data/media/0/" ++ s ≠ pstr "/storage/emulated/0/" ++ t :=
      ne_append_append _ _ (by decide) (by decide) _ _
    have n8 : pstr "/data/media/0/" ++ s ≠ pstr "/sdcard/" ++ t :=
      ne_append_append _ _ (by decide) (by decide) _ _
    have n9 : pstr "/storage/emulated/0/" ++ s ≠ pstr "/data/media/0/" ++ t :=
      ne_append_append _ _ (by decide) (by decide) _ _
    have n10 : pstr "/storage/emulated/0/" ++ s ≠ pstr "/sdcard/" ++ t :=
      ne_append_append _ _ (by decide) (by decide) _ _
    have n11 : pstr "/sdcard/" ++ s ≠ pstr "/data/media/0/" ++ t :=
      ne_append_append _ _ (by decide) (by decide) _ _
    have n12 : pstr "/sdcard/" ++ s ≠ pstr "/storage/emulated/0/" ++ t :=
      ne_append_append _ _ (by decide) (by decide) _ _
    by_cases hst : s = t
    · subst hst
      simp [n1, n2, n3, n4, n5, n6, n7, n8, n9, n10, n11, n12, e1, e2, e3, e4]
    · have m1 : ¬ (pstr "/data/media/0/" ++ s = pstr "/data/media/0/" ++ t) :=
        fun hc => hst (List.append_cancel_left hc)
      have m2 : ¬ (pstr "/storage/emulated/0/" ++ s = pstr "/storage/emulated/0/" ++ t) :=
        fun hc => hst (List.append_cancel_left hc)
      have m3 : ¬ (pstr "/sdcard/" ++ s = pstr "/sdcard/" ++ t) :=
        fun hc => hst (List.append_cancel_left hc)
      simp [n1, n2, n3, n4, n5, n6, n7, n8, n9, n10, n11, n12, m1, m2, m3, e1, e2, e3, e4]
  | false =>
  cases hse : startsWith np (pstr "/storage/emulated/0/") with
  | true =>
    obtain ⟨t, ht⟩ := (startsWith_true_iff np (pstr "/storage/emulated/0/")).1 hse
    subst ht
    have hdrop : (pstr "/storage/emulated/0/" ++ t).drop 20 = t := by
      have hlen : (20 : Nat) = (pstr "/storage/emulated/0/").length := rfl
      rw [hlen, List.drop_left]
    simp only [hdd, hdu, hdm, hse, if_true, if_false, Bool.false_eq_true, hdrop,
      dictGet_dictSet3]
    have n1 : pstr "/data/data/" ++ s ≠ pstr "/storage/emulated/0/" ++ t :=
      ne_append_append _ _ (by decide) (by decide) _ _
    have n2 : pstr "/data/data/" ++ s ≠ pstr "/data/media/0/" ++ t :=
      ne_append_append _ _ (by decide) (by decide) _ _
    have n3 : pstr "/data/data/" ++ s ≠ pstr "/sdcard/" ++ t :=
      ne_append_append _ _ (by decide) (by decide) _ _
    have n4 : pstr "/data/user/0/" ++ s ≠ pstr "/storage/emulated/0/" ++ t :=
      ne_append_append _ _ (by decide) (by decide) _ _
    have n5 : pstr "/data/user/0/" ++ s ≠ pstr "/data/media/0/" ++ t :=
      ne_append_append _ _ (by decide) (by decide) _ _
    have n6 : pstr "/data/user/0/" ++ s ≠ pstr "/sdcard/" ++ t :=
      ne_append_append _ _ (by decide) (by decide) _ _
    have n7 : pstr "/data/media/0/" ++ s ≠ pstr "/storage/emulated/0/" ++ t :=
      ne_append_append _ _ (by decide) (by decide) _ _
    have n8 : pstr "/data/media/0/" ++ s ≠ pstr "/sdcard/" ++ t :=
      ne_append_append _ _ (by decide) (by decide) _ _
    have n9 : pstr "/storage/emulated/0/" ++ s ≠ pstr "/data/media/0/" ++ t :=
      ne_append_append _ _ (by decide) (by decide) _ _
    have n10 : pstr "/storage/emulated/0/" ++ s ≠ pstr "/sdcard/" ++ t :=
      ne_append_append _ _ (by decide) (by decide) _ _
    have n11 : pstr "/sdcard/" ++ s ≠ pstr "/storage/emulated/0/" ++ t :=
      ne_append_append _ _ (by decide) (by decide) _ _
    have n12 : pstr "/sdcard/" ++ s ≠ pstr "/data/media/0/" ++ t :=
      ne_append_append _ _ (by decide) (by decide) _ _
    by_cases hst : s = t
    · subst hst
      simp [n1, n2, n3, n4, n5, n6, n7, n8, n9, n10, n11, n12, e1, e2, e3, e4]
    · have m1 : ¬ (pstr "/storage/emulated/0/" ++ s = pstr "/storage/emulated/0/" ++ t) :=
        fun hc => hst (List.append_cancel_left hc)
      have m2 : ¬ (pstr "/data/media/0/" ++ s = pstr "/data/media/0/" ++ t) :=
        fun hc => hst (List.append_cancel_left hc)
      have m3 : ¬ (pstr "/sdcard/" ++ s = pstr "/sdcard/" ++ t) :=
        fun hc => hst (List.append_cancel_left hc)
      simp [n1, n2, n3, n4, n5, n6, n7, n8, n9, n10, n11, n12, m1, m2, m3, e1, e2, e3, e4]
  | false =>
  cases hsd : startsWith np (pstr "/sdcard/") with
  | true =>
    obtain ⟨t, ht⟩ := (startsWith_true_iff np (pstr "/sdcard/")).1 hsd
    subst ht
    have hdrop : (pstr "/sdcard/" ++ t).drop 8 = t := by
      have hlen : (8 : Nat) = (pstr "/sdcard/").length := rfl
      rw [hlen, List.drop_left]
    simp only [hdd, hdu, hdm, hse, hsd, if_true, if_false, Bool.false_eq_true, hdrop,
      dictGet_dictSet3]
    have n1 : pstr "/data/data/" ++ s ≠ pstr "/sdcard/" ++ t :=
      ne_append_append _ _ (by decide) (by decide) _ _
    have n2 : pstr "/data/data/" ++ s ≠ pstr "/data/media/0/" ++ t :=
      ne_append_append _ _ (by decide) (by decide) _ _
    have n3 : pstr "/data/data/" ++ s ≠ pstr "/storage/emulated/0/" ++ t :=
      ne_append_append _ _ (by decide) (by decide) _ _
    have n4 : pstr "/data/user/0/" ++ s ≠ pstr "/sdcard/" ++ t :=
      ne_append_append _ _ (by decide) (by decide) _ _
    have n5 : pstr "/data/user/0/" ++ s ≠ pstr "/data/media/0/" ++ t :=
      ne_append_append _ _ (by decide) (by decide) _ _
    have n6 : pstr "/data/user/0/" ++ s ≠ pstr "/storage/emulated/0/" ++ t :=
      ne_append_append _ _ (by decide) (by decide) _ _
    have n7 : pstr "/data/media/0/" ++ s ≠ pstr "/sdcard/" ++ t :=
      ne_append_append _ _ (by decide) (by decide) _ _
    have n8 : pstr "/data/media/0/" ++ s ≠ pstr "/storage/emulated/0/" ++ t :=
      ne_append_append _ _ (by decide) (by decide) _ _
    have n9 : pstr "/storage/emulated/0/" ++ s ≠ pstr "/sdcard/" ++ t :=
      ne_append_append _ _ (by decide) (by decide) _ _
    have n10 : pstr "/storage/emulated/0/" ++ s ≠ pstr "/data/media/0/" ++ t :=
      ne_append_append _ _ (by decide) (by decide) _ _
    have n11 : pstr "/sdcard/" ++ s ≠ pstr "/data/media/0/" ++ t :=
      ne_append_append _ _ (by decide) (by decide) _ _
    have n12 : pstr "/sdcard/" ++ s ≠ pstr "/storage/emulated/0/" ++ t :=
      ne_append_append _ _ (by decide) (by decide) _ _
    by_cases hst : s = t
    · subst hst
      simp [n1, n2, n3, n4, n5, n6, n7, n8, n9, n10, n11, n12, e1, e2, e3, e4]
    · have m1 : ¬ (pstr "/sdcard/" ++ s = pstr "/sdcard/" ++ t) :=
        fun hc => hst (List.append_cancel_left hc)
      have m2 : ¬ (pstr "/data/media/0/" ++ s = pstr "/data/media/0/" ++ t) :=
        fun hc => hst (List.append_cancel_left hc)
      have m3 : ¬ (pstr "/storage/emulated/0/" ++ s = pstr "/storage/emulated/0/" ++ t) :=
        fun hc => hst (List.append_cancel_left hc)
      simp [n1, n2, n3, n4, n5, n6, n7, n8, n9, n10, n11, n12, m1, m2, m3, e1, e2, e3, e4]
  | false =>
    have k1 : pstr "/data/data/" ++ s ≠ np := fun hc => by
      rw [← hc, startsWith_append] at hdd; cases hdd
    have k2 : pstr "/data/user/0/" ++ s ≠ np := fun hc => by
      rw [← hc, startsWith_append] at hdu; cases hdu
    have k3 : pstr "/data/media/0/" ++ s ≠ np := fun hc => by
      rw [← hc, startsWith_append] at hdm; cases hdm
    have k4 : pstr "/storage/emulated/0/" ++ s ≠ np := fun hc => by
      rw [← hc, startsWith_append] at hse; cases hse
    have k5 : pstr "/sdcard/" ++ s ≠ np := fun hc => by
      rw [← hc, startsWith_append] at hsd; cases hsd
    simp only [hdd, hdu, hdm, hse, hsd, if_false, Bool.false_eq_true, dictGet_dictSet]
    simp [k1, k2, k3, k4, k5, e1, e2, e3, e4]

theorem foldl_build_index_alias (files : List FilesystemFile) (idx : FsIndex)
    (h : IndexAliasOk idx) :
    IndexAliasOk (files.foldl (build_index_insert (pstr "android")) idx) := by
  induction files generalizing idx with
  | nil => exact h
  | cons f fs ih => exact ih _ (build_index_insert_alias idx f h)

theorem build_file_index_alias (files : List FilesystemFile) :
    IndexAliasOk (build_file_index (pstr "android") files) :=
  foldl_build_index_alias files [] (fun _ => ⟨rfl, rfl, rfl⟩)

/-- An Android `FilesystemAcquisition` over the given files, after `build_index`. -/
def androidAcq (files : List FilesystemFile) (pth fmt : PStr)
    (am gm pm sm sgm cm : List (PStr × PStr)) : FilesystemAcquisition :=
  FilesystemAcquisition.build_index
    { path := pth, format := fmt, platform := pstr "android", files := files,
      file_index := [], app_container_mapping := am, group_container_mapping := gm,
      plugin_container_mapping := pm, system_container_mapping := sm,
      system_group_mapping := sgm, container_mapping := cm }

theorem androidAcq_index (files : List FilesystemFile) (pth fmt : PStr)
    (am gm pm sm sgm cm : List (PStr × PStr)) :
    (androidAcq files pth fmt am gm pm sm sgm cm).file_index
      = build_file_index (pstr "android") files := rfl

theorem find_file_of_hit (a : FilesystemAcquisition) (p : PStr) (e : FilesystemFile)
    (hidx : a.file_index = build_file_index a.platform a.files)
    (h : dictGet a.file_index p = some e) : a.find_file p = some e := by
  unfold FilesystemAcquisition.find_file
  have heff : (if a.file_index.isEmpty then build_file_index a.platform a.files
      else a.file_index) = a.file_index := by
    rw [hidx]
    exact ite_self _
  simp only [heff, h]

/-- Claim C6: in an Android acquisition after `build_index`, an entry indexed
under `/data/data/<p>` is returned by `find_file` on `/data/user/0/<p>` and
vice versa, and an entry indexed under any one of `/data/media/0/`,
`/storage/emulated/0/`, `/sdcard/` is returned by `find_file` on the same
suffix under either of the other two spellings. -/
theorem android_alias_find_file (files : List FilesystemFile) (s : PStr)
    (e : FilesystemFile) (pth fmt : PStr) (am gm pm sm sgm cm : List (PStr × PStr)) :
    (dictGet (androidAcq files pth fmt am gm pm sm sgm cm).file_index
        (pstr "/data/data/" ++ s) = some e →
      (androidAcq files pth fmt am gm pm sm sgm cm).find_file
        (pstr "/data/user/0/" ++ s) = some e)
  ∧ (dictGet (androidAcq files pth fmt am gm pm sm sgm cm).file_index
        (pstr "/data/user/0/" ++ s) = some e →
      (androidAcq files pth fmt am gm pm sm sgm cm).find_file
        (pstr "/data/data/" ++ s) = some e)
  ∧ (dictGet (androidAcq files pth fmt am gm pm sm sgm cm).file_index
        (pstr "/data/media/0/" ++ s) = some e →
      (androidAcq files pth fmt am gm pm sm sgm cm).find_file
          (pstr "/storage/emulated/0/" ++ s) = some e
        ∧ (androidAcq files pth fmt am gm pm sm sgm cm).find_file
            (pstr "/sdcard/" ++ s) = some e)
  ∧ (dictGet (androidAcq files pth fmt am gm pm sm sgm cm).file_index
        (pstr "/storage/emulated/0/" ++ s) = some e →
      (androidAcq files pth fmt am gm pm sm sgm cm).find_file
          (pstr "/data/media/0/" ++ s) = some e
        ∧ (androidAcq files pth fmt am gm pm sm sgm cm).find_file
            (pstr "/sdcard/" ++ s) = some e)
  ∧ (dictGet (androidAcq files pth fmt am gm pm sm sgm cm).file_index
        (pstr "/sdcard/" ++ s) = some e →
      (androidAcq files pth fmt am gm pm sm sgm cm).find_file
          (pstr "/data/media/0/" ++ s) = some e
        ∧ (androidAcq files pth fmt am gm pm sm sgm cm).find_file
            (pstr "/storage/emulated/0/" ++ s) = some e) := by
  have hacq := androidAcq_index files pth fmt am gm pm sm sgm cm
  have halias := build_file_index_alias files
  obtain ⟨e1, e2, e3⟩ := halias s
  rw [← hacq] at e1 e2 e3
  have hplat : (androidAcq files pth fmt am gm pm sm sgm cm).platform = pstr "android" := rfl
  have hfiles : (androidAcq files pth fmt am gm pm sm sgm cm).files = files := rfl
  have hidx : (androidAcq files pth fmt am gm pm sm sgm cm).file_index
      = build_file_index (androidAcq files pth fmt am gm pm sm sgm cm).platform
          (androidAcq files pth fmt am gm pm sm sgm cm).files := by
    rw [hplat, hfiles, hacq]
  refine ⟨?_, ?_, ?_, ?_, ?_⟩
  · intro h1
    exact find_file_of_hit _ _ _ hidx (by rw [← e1]; exact h1)
  · intro h1
    exact find_file_of_hit _ _ _ hidx (by rw [e1]; exact h1)
  · intro h1
    exact ⟨find_file_of_hit _ _ _ hidx (by rw [← e2]; exact h1),
           find_file_of_hit _ _ _ hidx (by rw [← e3]; exact h1)⟩
  · intro h1
    exact ⟨find_file_of_hit _ _ _ hidx (by rw [e2]; exact h1),
           find_file_of_hit _ _ _ hidx (by rw [← e3, e2]; exact h1)⟩
  · intro h1
    exact ⟨find_file_of_hit _ _ _ hidx (by rw [e3]; exact h1),
           find_file_of_hit _ _ _ hidx (by rw [← e2, e3]; exact h1)⟩

/-- Claim C6, witness: a one-file Android acquisition, looked up through both
spellings of its package-data path and all three shared-storage spellings. -/
theorem android_alias_find_file_witness :
    (dictGet (androidAcq
        [ { path := pstr "/data/data/com.app/f.db", size := 7, is_directory := false,
            modified_time := none, platform := pstr "android" },
          { path := pstr "/data/media/0/DCIM/p.jpg", size := 9, is_directory := false,
            modified_time := none, platform := pstr "android" } ]
        (pstr "/fs") (pstr "tar") [] [] [] [] [] []).file_index
      (pstr "/data/data/" ++ pstr "com.app/f.db")
      = some { path := pstr "/data/data/com.app/f.db", size := 7, is_directory := false,
               modified_time := none, platform := pstr "android" })
  ∧ ((androidAcq
        [ { path := pstr "/data/data/com.app/f.db", size := 7, is_directory := false,
            modified_time := none, platform := pstr "android" },
          { path := pstr "/data/media/0/DCIM/p.jpg", size := 9, is_directory := false,
            modified_time := none, platform := pstr "android" } ]
        (pstr "/fs") (pstr "tar") [] [] [] [] [] []).find_file
      (pstr "/data/user/0/" ++ pstr "com.app/f.db")
      = some { path := pstr "/data/data/com.app/f.db", size := 7, is_directory := false,
               modified_time := none, platform := pstr "android" })
  ∧ ((androidAcq
        [ { path := pstr "/data/data/com.app/f.db", size := 7, is_directory := false,
            modified_time := none, platform := pstr "android" },
          { path := pstr "/data/media/0/DCIM/p.jpg", size := 9, is_directory := false,
            modified_time := none, platform := pstr "android" } ]
        (pstr "/fs") (pstr "tar") [] [] [] [] [] []).find_file
      (pstr "/storage/emulated/0/" ++ pstr "DCIM/p.jpg")
      = some { path := pstr "/data/media/0/DCIM/p.jpg", size := 9, is_directory := false,
               modified_time := none, platform := pstr "android" }) := by
  refine ⟨by decide, ?_, ?_⟩
  · exact (android_alias_find_file _ (pstr "com.app/f.db") _ (pstr "/fs") (pstr "tar")
      [] [] [] [] [] []).1 (by decide)
  · exact ((android_alias_find_file _ (pstr "DCIM/p.jpg") _ (pstr "/fs") (pstr "tar")
      [] [] [] [] [] []).2.2.1 (by decide)).1

/-! ### Tar members and the decoder member loops -/

inductive TarMemberType
  | dir
  | regular
  | other
deriving Repr, DecidableEq

/-- A tar member as the decoders see it (`TarInfo`): `mtime = 0` models a
falsy modification time, `typ` models `isdir()` / `isfile()`. -/
structure TarMember where
  name : PStr
  mode : Nat
  size : Nat
  mtime : Nat
  typ : TarMemberType
deriving Repr, DecidableEq

def TarMember.isdir (m : TarMember) : Bool := m.typ == TarMemberType.dir

def TarMember.isfile (m : TarMember) : Bool := m.typ == TarMemberType.regular

/-- One iteration of the member loop in `AndroidBackupParser.parse`
(android_backup_parser.py lines 412-476): a directory member is logged and
recorded with `mode := member.mode` **unchanged** and `flags := 2`; other
non-regular members are only logged; regular files get `flags := 1`.
The interpolated tar type byte in the skip message is abbreviated. -/
def android_parse_member_step (acc : List AndroidBackupFile × ParsingLog)
    (item : PStr × TarMember) : List AndroidBackupFile × ParsingLog :=
  let (files, log) := acc
  let (name, member) := item
  let (domain, token, relative_path) := parse_tar_path name
  if member.isdir then
    let log := log.add_entry name domain relative_path (pstr "added_directory")
      (if token.isEmpty then [] else pstr "token=" ++ token) 0
    let bf : AndroidBackupFile :=
      { file_id := name, domain := domain, relative_path := relative_path,
        file_size := 0, mode := member.mode,
        modified_time := if member.mtime == 0 then none else some member.mtime,
        flags := 2, actual_file_size := none, token := token }
    (files ++ [bf], log)
  else if member.isfile = false then
    (files, log.add_entry name domain relative_path (pstr "skipped_no_content")
      (pstr "Not a regular file") 0)
  else
    let bf : AndroidBackupFile :=
      { file_id := name, domain := domain, relative_path := relative_path,
        file_size := member.size, mode := member.mode,
        modified_time := if member.mtime == 0 then none else some member.mtime,
        flags := 1, actual_file_size := some member.size, token := token }
    let details := (if token.isEmpty then [] else pstr "token=" ++ token)
      ++ (if UNMAPPABLE_TOKENS.contains token then pstr " (no filesystem equivalent)" else [])
    (files ++ [bf],
     log.add_entry name domain relative_path (pstr "added_file") details member.size)

/-- One iteration of the backup.ab member loop in `ALEXParser.parse`
(alex_parser.py lines 225-268): non-file non-dir members are only logged; for
directory members whose raw mode carries no file-type bits the directory bit
`0o040000` is set before the entry is built; the accumulator also tracks
`seen_domain_paths`. -/
def alex_parse_member_step
    (acc : List AndroidBackupFile × List PStr × ParsingLog)
    (item : PStr × TarMember) : List AndroidBackupFile × List PStr × ParsingLog :=
  let (files, seen, log) := acc
  let (name, member) := item
  let (domain, token, relative_path) := parse_tar_path name
  let is_dir := member.isdir
  if is_dir = false ∧ member.isfile = false then
    (files, seen, log.add_entry name domain relative_path (pstr "skipped_no_content")
      (pstr "Not a regular file") 0)
  else
    let mode := if is_dir ∧ Nat.land member.mode 0o170000 = 0
                then Nat.lor member.mode 0o040000 else member.mode
    let bf : AndroidBackupFile :=
      { file_id := name, domain := domain, relative_path := relative_path,
        file_size := if is_dir then 0 else member.size, mode := mode,
        modified_time := if member.mtime == 0 then none else some member.mtime,
        flags := if is_dir then 2 else 1,
        actual_file_size := if is_dir then none else some member.size,
        token := token }
    let files := files ++ [bf]
    let seen := setAdd seen bf.full_domain_path
    let status := if is_dir then pstr "added_directory" else pstr "added_file"
    let details := (if token.isEmpty then [] else pstr "token=" ++ token)
      ++ (if UNMAPPABLE_TOKENS.contains token then pstr " (no filesystem equivalent)" else [])
    (files, seen,
     log.add_entry name domain relative_path status details
       (if is_dir then 0 else member.size))

/-- One iteration of the adb-data.tar member loop in
`MagnetQuickImageParser.parse` (magnet_parser.py lines 114-149): every member
is recorded (there is no skip branch); for directory members the directory
type bit is set when absent. -/
def magnet_parse_member_step
    (acc : List AndroidBackupFile × List PStr × ParsingLog)
    (item : PStr × TarMember) : List AndroidBackupFile × List PStr × ParsingLog :=
  let (files, seen, log) := acc
  let (name, member) := item
  let (domain, token, relative_path) := parse_tar_path name
  let is_dir := member.isdir
  let mode := if is_dir ∧ Nat.land member.mode 0o170000 = 0
              then Nat.lor member.mode 0o040000 else member.mode
  let bf : AndroidBackupFile :=
    { file_id := name, domain := domain, relative_path := relative_path,
      file_size := if is_dir then 0 else member.size, mode := mode,
      modified_time := if member.mtime == 0 then none else some member.mtime,
      flags := if is_dir then 2 else 1,
      actual_file_size := if is_dir then none else some member.size,
      token := token }
  let files := files ++ [bf]
  let seen := setAdd seen bf.full_domain_path
  let status := if is_dir then pstr "added_directory" else pstr "added_file"
  let details := (if token.isEmpty then [] else pstr "token=" ++ token)
    ++ (if UNMAPPABLE_TOKENS.contains token then pstr " (no filesystem equivalent)" else [])
  (files, seen,
   log.add_entry name domain relative_path status details
     (if is_dir then 0 else member.size))

/-- Claim C2: evaluation at the failing input.  A tar directory member whose
mode field lacks the file-type bits (permission bits `0o755` only, as common
tars store for directories) is decoded by the `.ab` decoder's member loop into
an `AndroidBackupFile` with `mode = 0o755` — the directory bit `0o040000` is
**not** set and `is_directory` is `false` — while the ALEX and Magnet member
loops set the bit (`mode = 0o040755`, `is_directory = true`) for the very same
member. -/
theorem android_parse_dir_member_mode_unfixed :
    ((android_parse_member_step ([], ParsingLog.empty)
        (pstr "apps/com.example/r/dir",
         { name := pstr "apps/com.example/r/dir", mode := 0o755, size := 0,
           mtime := 0, typ := TarMemberType.dir })).1.map
      (fun bf => (bf.mode, bf.flags, bf.is_directory)) = [(0o755, 2, false)])
  ∧ ((alex_parse_member_step ([], [], ParsingLog.empty)
        (pstr "apps/com.example/r/dir",
         { name := pstr "apps/com.example/r/dir", mode := 0o755, size := 0,
           mtime := 0, typ := TarMemberType.dir })).1.map
      (fun bf => (bf.mode, bf.flags, bf.is_directory)) = [(0o040755, 2, true)])
  ∧ ((magnet_parse_member_step ([], [], ParsingLog.empty)
        (pstr "apps/com.example/r/dir",
         { name := pstr "apps/com.example/r/dir", mode := 0o755, size := 0,
           mtime := 0, typ := TarMemberType.dir })).1.map
      (fun bf => (bf.mode, bf.flags, bf.is_directory)) = [(0o040755, 2, true)]) := by
  decide

/-! ### Crypto layer and AndroidBackupParser.parse (android_backup_parser.py) -/

/-- Byte strings. -/
abbrev Bytes := List Nat

/-- The cryptographic primitives used by `_decrypt_payload`, kept abstract:
`pbkdf2_hmac_sha1 key salt rounds` is `hashlib.pbkdf2_hmac('sha1', key, salt,
rounds, 32)`; `aesCbcDecrypt key iv data` is the 16-byte-block CBC loop over
the master-key blob; `decrypterFeed key iv data` is the
`pyaes.Decrypter(...).feed` pipeline over the payload; `utf8Encode` is
`str.encode('utf-8')`. -/
structure CryptoOps where
  pbkdf2_hmac_sha1 : Bytes → Bytes → Nat → Bytes
  aesCbcDecrypt : Bytes → Bytes → Bytes → Bytes
  decrypterFeed : Bytes → Bytes → Bytes → Bytes
  utf8Encode : PStr → Bytes

/-- The archive-handling primitives used by `parse`, kept abstract:
`zlibDecompress` is `zlib.decompress` (`none` = `zlib.error`), `tarMembers`
is `tarfile.open(...).getmembers()` (`none` = `TarError`), `extractFile` is
`extractfile(member).read()` (`none` when no file object or an error), and
`utf8Decode` is `bytes.decode('utf-8', errors='replace')`. -/
structure ArchiveOps where
  zlibDecompress : Bytes → Option Bytes
  tarMembers : Bytes → Option (List TarMember)
  extractFile : TarMember → Option Bytes
  utf8Decode : Bytes → PStr

/-- The parsed `.ab` header (`AndroidBackupParser._parse_header` output). -/
structure AbHeader where
  format_version : Nat
  compression : Nat
  encryption : PStr
  user_salt : Bytes
  checksum_salt : Bytes
  pbkdf2_rounds : Nat
  user_iv : Bytes
  master_key_blob : Bytes
deriving Repr, DecidableEq

/-- Errors escaping the decoder: `androidBackupError` is a raised
`AndroidBackupError`, `pyException` any other uncaught Python exception. -/
inductive DecodeErr
  | androidBackupError (msg : PStr)
  | pyException (msg : PStr)
deriving Repr, DecidableEq

/-- `AndroidBackupParser._convert_to_utf8_bytes`. -/
def convert_to_utf8_bytes (input_bytes : Bytes) : Bytes :=
  (input_bytes.map (fun b =>
    if b < 0x80 then [b]
    else [Nat.lor 0xef (Nat.shiftRight b 12),
          Nat.lor 0xbc (Nat.land (Nat.shiftRight b 6) 0x3f),
          Nat.lor 0x80 (Nat.land b 0x3f)])).flatten

/-- Parse the decrypted master-key TLV blob: 1-byte length + IV, 1-byte
length + master key, 1-byte length + checksum.  `none` models the IndexError
Python raises from `blob.read(1)[0]` on an exhausted stream; a short
`read(n)` silently returns fewer bytes, modelled by `take`. -/
def parseMasterBlob (b : Bytes) : Option (Bytes × Bytes × Bytes) :=
  match b with
  | [] => none
  | l1 :: r1 =>
    let master_iv := r1.take l1
    match r1.drop l1 with
    | [] => none
    | l2 :: r3 =>
      let master_key := r3.take l2
      match r3.drop l2 with
      | [] => none
      | l3 :: r5 => some (master_iv, master_key, r5.take l3)

/-- `AndroidBackupParser._decrypt_payload`: derive the user key, decrypt and
parse the master-key blob, verify the checksum (raising
`AndroidBackupError("Invalid password or corrupted backup")` on mismatch —
the only password-validity signal), then decrypt the payload. -/
def decrypt_payload (crypto : CryptoOps) (encrypted_data : Bytes) (header : AbHeader)
    (password : PStr) : Except DecodeErr Bytes :=
  let user_key := crypto.pbkdf2_hmac_sha1 (crypto.utf8Encode password)
      header.user_salt header.pbkdf2_rounds
  let decrypted_blob := crypto.aesCbcDecrypt user_key header.user_iv header.master_key_blob
  match parseMasterBlob decrypted_blob with
  | none => .error (.pyException (pstr "IndexError"))
  | some (master_iv, master_key, master_checksum) =>
    let converted_key :=
      if 2 ≤ header.format_version then convert_to_utf8_bytes master_key else master_key
    let expected_checksum := crypto.pbkdf2_hmac_sha1 converted_key
        header.checksum_salt header.pbkdf2_rounds
    if master_checksum ≠ expected_checksum then
      .error (.androidBackupError (pstr "Invalid password or corrupted backup"))
    else
      .ok (crypto.decrypterFeed master_key master_iv encrypted_data)

/-- `str.isdigit()` over ASCII digits. -/
def pyIsdigit (s : PStr) : Bool :=
  !s.isEmpty && s.all (fun c => '0' ≤ c && c ≤ '9')

/-- Python's default `str.strip()` whitespace class. -/
def pyWhitespace : PStr := pstr " \t\n\x0b\x0c\r"

/-- The Android-version scan at the end of `parse`: the first `_manifest`
member whose 4th line is numeric yields `"SDK <n>"`. -/
def manifest_sdk_version (archive : ArchiveOps) : List (PStr × TarMember) → PStr
  | [] => []
  | (name, member) :: rest =>
    if endsWith name (pstr "/_manifest") ∧ member.isfile = true then
      match archive.extractFile member with
      | none => manifest_sdk_version archive rest
      | some content =>
        let lines := pySplit '\n' (pyStrip pyWhitespace (archive.utf8Decode content))
        if 4 ≤ lines.length ∧ pyIsdigit (pyStrip pyWhitespace (lines.getD 3 [])) then
          pstr "SDK " ++ pyStrip pyWhitespace (lines.getD 3 [])
        else manifest_sdk_version archive rest
    else manifest_sdk_version archive rest

/-- `AndroidBackup` from android_backup_parser.py (byte buffers and live
handles are reduced to presence flags; `member_lookup` keeps the
name-to-member dict). -/
structure AndroidBackup where
  path : PStr
  device_name : PStr
  is_encrypted : Bool
  files : List AndroidBackupFile
  manifest_db_row_count : Nat
  parsing_log : ParsingLog
  format_version : Nat
  android_version : PStr
  backup_handle : Option Unit
  member_lookup : List (PStr × TarMember)
  password : Option PStr
deriving Repr, DecidableEq

/-- `AndroidBackupParser.parse` from the point where the header lines have
been read: password resolution (explicit argument, then `password.txt`, then
the callback), decryption, decompression, tar enumeration, the member loop,
version extraction, and only then construction of the `AndroidBackup`.
`filePayload` is the remainder of the `.ab` file after the header. -/
def AndroidBackupParser.parse (crypto : CryptoOps) (archive : ArchiveOps)
    (backup_path : PStr) (header : AbHeader) (filePayload : Bytes)
    (self_password find_password cb_password : Option PStr) :
    Except DecodeErr AndroidBackup := do
  let is_encrypted := header.encryption = pstr "AES-256"
  let compressed_data ←
    if header.encryption = pstr "AES-256" then
      match (self_password <|> find_password <|> cb_password) with
      | none => Except.error (DecodeErr.androidBackupError
          (pstr "Encrypted backup requires a password. Provide password.txt in the backup directory or enter it when prompted."))
      | some password => decrypt_payload crypto filePayload header password
    else if header.encryption = pstr "none" then Except.ok filePayload
    else Except.error (DecodeErr.androidBackupError
      (pstr "Unknown encryption type: " ++ header.encryption))
  let tar_data ←
    if header.compression == 1 then
      match archive.zlibDecompress compressed_data with
      | none => Except.error (DecodeErr.androidBackupError
          (pstr "Failed to decompress backup"))
      | some d => Except.ok d
    else Except.ok compressed_data
  let members ←
    match archive.tarMembers tar_data with
    | none => Except.error (DecodeErr.androidBackupError (pstr "Failed to parse tar data"))
    | some ms => Except.ok ms
  let member_lookup := members.foldl (fun m mem => dictSet m mem.name mem) []
  let log0 := { ParsingLog.empty with total_rows := member_lookup.length }
  let fl := member_lookup.foldl android_parse_member_step ([], log0)
  let android_version := manifest_sdk_version archive member_lookup
  Except.ok
    { path := backup_path, device_name := pstr "Android Device",
      is_encrypted := is_encrypted, files := fl.1,
      manifest_db_row_count := member_lookup.length, parsing_log := fl.2,
      format_version := header.format_version, android_version := android_version,
      backup_handle := some (), member_lookup := member_lookup,
      password := self_password }

theorem except_error_bind {ε α β : Type} (e : ε) (f : α → Except ε β) :
    (Except.error e >>= f : Except ε β) = Except.error e := rfl

/-- Claim C7: when the stored master-key checksum differs from the
PBKDF2-recomputed one (the wrong-password case), `_decrypt_payload` raises
`AndroidBackupError("Invalid password or corrupted backup")`, `parse`
propagates it, and no `AndroidBackup` container — partial or otherwise — is
returned, since the error fires before container construction. -/
theorem parse_wrong_password_auth_error (crypto : CryptoOps) (archive : ArchiveOps)
    (backup_path : PStr) (header : AbHeader) (payload : Bytes) (pw : PStr)
    (find_pw cb_pw : Option PStr)
    (henc : header.encryption = pstr "AES-256")
    (miv mkey mchk : Bytes)
    (hblob : parseMasterBlob (crypto.aesCbcDecrypt
        (crypto.pbkdf2_hmac_sha1 (crypto.utf8Encode pw) header.user_salt
          header.pbkdf2_rounds)
        header.user_iv header.master_key_blob) = some (miv, mkey, mchk))
    (hmismatch : mchk ≠ crypto.pbkdf2_hmac_sha1
        (if 2 ≤ header.format_version then convert_to_utf8_bytes mkey else mkey)
        header.checksum_salt header.pbkdf2_rounds) :
    decrypt_payload crypto payload header pw
      = .error (.androidBackupError (pstr "Invalid password or corrupted backup"))
    ∧ AndroidBackupParser.parse crypto archive backup_path header payload
        (some pw) find_pw cb_pw
      = .error (.androidBackupError (pstr "Invalid password or corrupted backup"))
    ∧ ∀ b : AndroidBackup,
        AndroidBackupParser.parse crypto archive backup_path header payload
          (some pw) find_pw cb_pw ≠ .ok b := by
  have hdp : decrypt_payload crypto payload header pw
      = .error (.androidBackupError (pstr "Invalid password or corrupted backup")) := by
    simp only [decrypt_payload, hblob]
    exact if_pos hmismatch
  have hparse : AndroidBackupParser.parse crypto archive backup_path header payload
      (some pw) find_pw cb_pw
      = .error (.androidBackupError (pstr "Invalid password or corrupted backup")) := by
    have horelse : (some pw <|> find_pw <|> cb_pw) = some pw := rfl
    unfold AndroidBackupParser.parse
    simp only [henc, eq_self_iff_true, if_true, horelse, hdp, except_error_bind]
  exact ⟨hdp, hparse, fun b hb => by rw [hparse] at hb; cases hb⟩

/-- Concrete crypto primitives for the claim C7 witness: the stored checksum
`[7]` never matches the recomputed `[1]`. -/
def c7Crypto : CryptoOps :=
  { pbkdf2_hmac_sha1 := fun _ _ _ => [1],
    aesCbcDecrypt := fun _ _ _ => [1, 9, 1, 8, 1, 7],
    decrypterFeed := fun _ _ d => d,
    utf8Encode := fun s => s.map Char.toNat }

/-- Concrete archive primitives for the claim C7 witness. -/
def c7Archive : ArchiveOps :=
  { zlibDecompress := fun b => some b, tarMembers := fun _ => some [],
    extractFile := fun _ => none, utf8Decode := fun _ => [] }

/-- Concrete encrypted header for the claim C7 witness. -/
def c7Header : AbHeader :=
  { format_version := 1, compression := 1, encryption := pstr "AES-256",
    user_salt := [], checksum_salt := [], pbkdf2_rounds := 1000,
    user_iv := [], master_key_blob := [] }

/-- Claim C7, witness: the theorem applied at a concrete wrong password. -/
theorem parse_wrong_password_auth_error_witness :
    decrypt_payload c7Crypto [5] c7Header (pstr "wrongpw")
      = .error (.androidBackupError (pstr "Invalid password or corrupted backup"))
  ∧ AndroidBackupParser.parse c7Crypto c7Archive (pstr "/b.ab") c7Header [5]
      (some (pstr "wrongpw")) none none
      = .error (.androidBackupError (pstr "Invalid password or corrupted backup")) := by
  obtain ⟨h1, h2, h3⟩ := parse_wrong_password_auth_error c7Crypto c7Archive (pstr "/b.ab")
    c7Header [5] (pstr "wrongpw") none none rfl [9] [8] [7] rfl (by decide)
  exact ⟨h1, h2⟩

/-! ### get_file_content across the four decoder families -/

/-- `AndroidBackupParser.get_file_content`: `None` for directories, a missing
tar handle, an unknown `file_id`, or any extraction failure. -/
def AndroidBackupParser.get_file_content (archive : ArchiveOps)
    (backup : AndroidBackup) (backup_file : AndroidBackupFile) : Option Bytes :=
  if backup_file.is_directory then none
  else
    match backup.backup_handle with
    | none => none
    | some _ =>
      match dictGet backup.member_lookup backup_file.file_id with
      | none => none
      | some member => archive.extractFile member

/-- The ALEX side-table entry kinds (`'ab_tar'` / `'zip'`). -/
inductive AlexSource
  | ab_tar (member : TarMember)
  | zip (name : PStr)
deriving Repr, DecidableEq

/-- `ALEXParser.get_file_content`: `None` for directories, for a missing or
empty `_alex_source_lookup`, an unknown `file_id`, or any read failure;
`zip_read` models `backup._alex_zip.read` (`none` when the handle is absent
or the read raises). -/
def ALEXParser.get_file_content (archive : ArchiveOps)
    (source_lookup : List (PStr × AlexSource)) (zip_read : Option (PStr → Option Bytes))
    (backup_file : AndroidBackupFile) : Option Bytes :=
  if backup_file.is_directory then none
  else if source_lookup.isEmpty then none
  else
    match dictGet source_lookup backup_file.file_id with
    | none => none
    | some (AlexSource.ab_tar member) => archive.extractFile member
    | some (AlexSource.zip name) =>
      match zip_read with
      | none => none
      | some rd => rd name

/-- The Magnet side-table entry kinds (`'adb_tar'` / `'sdcard_tar'` / `'zip'`). -/
inductive MagnetSource
  | adb_tar (member : TarMember)
  | sdcard_tar (member : TarMember)
  | zip (name : PStr)
deriving Repr, DecidableEq

/-- `MagnetQuickImageParser.get_file_content`. -/
def MagnetQuickImageParser.get_file_content (archive : ArchiveOps)
    (source_lookup : List (PStr × MagnetSource))
    (sdcard_extract : Option (TarMember → Option Bytes))
    (zip_read : Option (PStr → Option Bytes))
    (backup_file : AndroidBackupFile) : Option Bytes :=
  if backup_file.is_directory then none
  else if source_lookup.isEmpty then none
  else
    match dictGet source_lookup backup_file.file_id with
    | none => none
    | some (MagnetSource.adb_tar member) => archive.extractFile member
    | some (MagnetSource.sdcard_tar member) =>
      match sdcard_extract with
      | none => none
      | some ex => ex member
    | some (MagnetSource.zip name) =>
      match zip_read with
      | none => none
      | some rd => rd name

/-- `iOSBackup` from ios_backup_parser.py (live handles reduced to presence
flags). -/
structure iOSBackup where
  path : PStr
  device_name : PStr
  is_encrypted : Bool
  is_zipped : Bool
  files : List BackupFile
  manifest_db_row_count : Nat
  parsing_log : ParsingLog
  backup_handle : Option Unit
  zip_handle : Option Unit
  password : Option PStr
deriving Repr, DecidableEq

/-- `iOSBackupParser.get_file_content`: `None` for directories; the encrypted
branch is a placeholder (`pass`) in the source; the stored object lives at
`file_id[:2]/file_id`, read from the ZIP (under the `Manifest.db` directory
spelling, `KeyError` giving `None`) or from disk (`None` when absent or
unreadable). -/
def iOSBackupParser.get_file_content (zip_namelist : List PStr)
    (zip_read fs_read : PStr → Option Bytes)
    (backup : iOSBackup) (backup_file : BackupFile) : Option Bytes :=
  if backup_file.is_directory then none
  else
    let file_path := backup_file.file_id.take 2 ++ '/' :: backup_file.file_id
    if backup.is_zipped ∧ backup.zip_handle.isSome then
      let pref :=
        match zip_namelist.find? (fun n => endsWith n (pstr "/Manifest.db")) with
        | some n => n.take (n.length - (pstr "Manifest.db").length)
        | none => []
      zip_read (pref ++ file_path)
    else
      fs_read (backup.path ++ '/' :: file_path)

/-- Claim C10: every decoder family's `get_file_content` is total at the
public interface — for a directory entry, or for a `file_id` with no recorded
content source in the container, it returns `None` instead of raising, for
the Android `.ab`, ALEX, Magnet and iOS decoders alike. -/
theorem get_file_content_total :
    (∀ (archive : ArchiveOps) (b : AndroidBackup) (bf : AndroidBackupFile),
      bf.is_directory = true → AndroidBackupParser.get_file_content archive b bf = none)
  ∧ (∀ (archive : ArchiveOps) (b : AndroidBackup) (bf : AndroidBackupFile),
      dictGet b.member_lookup bf.file_id = none →
      AndroidBackupParser.get_file_content archive b bf = none)
  ∧ (∀ (archive : ArchiveOps) (sl : List (PStr × AlexSource))
      (zr : Option (PStr → Option Bytes)) (bf : AndroidBackupFile),
      bf.is_directory = true → ALEXParser.get_file_content archive sl zr bf = none)
  ∧ (∀ (archive : ArchiveOps) (sl : List (PStr × AlexSource))
      (zr : Option (PStr → Option Bytes)) (bf : AndroidBackupFile),
      dictGet sl bf.file_id = none → ALEXParser.get_file_content archive sl zr bf = none)
  ∧ (∀ (archive : ArchiveOps) (sl : List (PStr × MagnetSource))
      (sx : Option (TarMember → Option Bytes)) (zr : Option (PStr → Option Bytes))
      (bf : AndroidBackupFile),
      bf.is_directory = true →
      MagnetQuickImageParser.get_file_content archive sl sx zr bf = none)
  ∧ (∀ (archive : ArchiveOps) (sl : List (PStr × MagnetSource))
      (sx : Option (TarMember → Option Bytes)) (zr : Option (PStr → Option Bytes))
      (bf : AndroidBackupFile),
      dictGet sl bf.file_id = none →
      MagnetQuickImageParser.get_file_content archive sl sx zr bf = none)
  ∧ (∀ (nl : List PStr) (zr fr : PStr → Option Bytes) (b : iOSBackup) (bf : BackupFile),
      bf.is_directory = true → iOSBackupParser.get_file_content nl zr fr b bf = none)
  ∧ (∀ (nl : List PStr) (zr fr : PStr → Option Bytes) (b : iOSBackup) (bf : BackupFile),
      (∀ p, zr p = none) → (∀ p, fr p = none) →
      iOSBackupParser.get_file_content nl zr fr b bf = none) := by
  refine ⟨?_, ?_, ?_, ?_, ?_, ?_, ?_, ?_⟩
  · intro archive b bf h
    simp [AndroidBackupParser.get_file_content, h]
  · intro archive b bf h
    unfold AndroidBackupParser.get_file_content
    cases bf.is_directory
    · cases hh : b.backup_handle <;> simp [h, hh]
    · simp
  · intro archive sl zr bf h
    simp [ALEXParser.get_file_content, h]
  · intro archive sl zr bf h
    unfold ALEXParser.get_file_content
    cases bf.is_directory
    · cases he : sl.isEmpty <;> simp [h, he]
    · simp
  · intro archive sl sx zr bf h
    simp [MagnetQuickImageParser.get_file_content, h]
  · intro archive sl sx zr bf h
    unfold MagnetQuickImageParser.get_file_content
    cases bf.is_directory
    · cases he : sl.isEmpty <;> simp [h, he]
    · simp
  · intro nl zr fr b bf h
    simp [iOSBackupParser.get_file_content, h]
  · intro nl zr fr b bf hzr hfr
    unfold iOSBackupParser.get_file_content
    cases bf.is_directory
    · by_cases hc : b.is_zipped ∧ b.zip_handle.isSome <;> simp [hc, hzr, hfr]
    · simp

/-- Archive primitives for the claim C10 witness. -/
def c10Archive : ArchiveOps :=
  { zlibDecompress := fun b => some b, tarMembers := fun _ => some [],
    extractFile := fun _ => some [1], utf8Decode := fun _ => [] }

/-- A directory entry for the claim C10 witness. -/
def c10Dir : AndroidBackupFile :=
  { file_id := pstr "apps/com.a/r/d", domain := pstr "com.a", relative_path := pstr "r/d",
    file_size := 0, mode := 0o040755, modified_time := none, flags := 2,
    actual_file_size := none, token := pstr "r" }

/-- A regular entry whose id has no recorded source, for the claim C10 witness. -/
def c10Orphan : AndroidBackupFile :=
  { file_id := pstr "apps/com.a/f/x", domain := pstr "com.a", relative_path := pstr "f/x",
    file_size := 3, mode := 0o100644, modified_time := none, flags := 1,
    actual_file_size := some 3, token := pstr "f" }

/-- An `AndroidBackup` with an empty member table, for the claim C10 witness. -/
def c10Backup : AndroidBackup :=
  { path := pstr "/b.ab", device_name := pstr "Android Device", is_encrypted := false,
    files := [c10Dir, c10Orphan], manifest_db_row_count := 2,
    parsing_log := ParsingLog.empty, format_version := 3, android_version := [],
    backup_handle := some (), member_lookup := [], password := none }

/-- An iOS directory entry for the claim C10 witness. -/
def c10IosDir : BackupFile :=
  { file_id := pstr "ab12", domain := pstr "HomeDomain", relative_path := pstr "Library",
    file_size := 0, mode := 0o040755, modified_time := none, flags := 2,
    actual_file_size := none }

/-- An iOS file entry with no stored object, for the claim C10 witness. -/
def c10IosOrphan : BackupFile :=
  { file_id := pstr "cd34", domain := pstr "HomeDomain", relative_path := pstr "a.db",
    file_size := 5, mode := 0o100644, modified_time := none, flags := 1,
    actual_file_size := none }

/-- An `iOSBackup` for the claim C10 witness. -/
def c10IosBackup : iOSBackup :=
  { path := pstr "/ios", device_name := pstr "iPhone", is_encrypted := false,
    is_zipped := false, files := [c10IosDir, c10IosOrphan], manifest_db_row_count := 2,
    parsing_log := ParsingLog.empty, backup_handle := none, zip_handle := none,
    password := none }

/-- Claim C10, witness: the totality theorem applied at concrete entries. -/
theorem get_file_content_total_witness :
    AndroidBackupParser.get_file_content c10Archive c10Backup c10Dir = none
  ∧ AndroidBackupParser.get_file_content c10Archive c10Backup c10Orphan = none
  ∧ ALEXParser.get_file_content c10Archive [] none c10Dir = none
  ∧ ALEXParser.get_file_content c10Archive [] none c10Orphan = none
  ∧ MagnetQuickImageParser.get_file_content c10Archive [] none none c10Dir = none
  ∧ MagnetQuickImageParser.get_file_content c10Archive [] none none c10Orphan = none
  ∧ iOSBackupParser.get_file_content [] (fun _ => none) (fun _ => none)
      c10IosBackup c10IosDir = none
  ∧ iOSBackupParser.get_file_content [] (fun _ => none) (fun _ => none)
      c10IosBackup c10IosOrphan = none := by
  obtain ⟨t1, t2, t3, t4, t5, t6, t7, t8⟩ := get_file_content_total
  exact ⟨t1 c10Archive c10Backup c10Dir (by decide),
         t2 c10Archive c10Backup c10Orphan rfl,
         t3 c10Archive [] none c10Dir (by decide),
         t4 c10Archive [] none c10Orphan rfl,
         t5 c10Archive [] none none c10Dir (by decide),
         t6 c10Archive [] none none c10Orphan rfl,
         t7 [] (fun _ => none) (fun _ => none) c10IosBackup c10IosDir (by decide),
         t8 [] (fun _ => none) (fun _ => none) c10IosBackup c10IosOrphan
           (fun _ => rfl) (fun _ => rfl)⟩

/-! ### Claim C8: ALEX sdcard deduplication -/

theorem pyMem_cons (x y : PStr) (s : List PStr) :
    pyMem x (y :: s) = ((x == y) || pyMem x s) := by
  by_cases hxy : x = y
  · subst hxy
    simp [pyMem]
  · simp [pyMem, hxy]

theorem pyMem_setAdd_self (s : List PStr) (x : PStr) : pyMem x (setAdd s x) = true := by
  unfold setAdd
  cases h : pyMem x s
  · simp [h, pyMem_cons]
  · simp [h]

theorem pyMem_setAdd_mono (s : List PStr) (x y : PStr) (h : pyMem x s = true) :
    pyMem x (setAdd s y) = true := by
  unfold setAdd
  cases hy : pyMem y s
  · simp [hy, pyMem_cons, h]
  · simp [hy, h]

theorem pyMem_iff_mem (x : PStr) (s : List PStr) : pyMem x s = true ↔ x ∈ s := by
  simp [pyMem]

/-- A ZIP directory entry's name and size (`ZipInfo`). -/
structure ZipInfo where
  name : PStr
  file_size : Nat
deriving Repr, DecidableEq

/-- The body of one iteration of the sdcard merge loop in `ALEXParser.parse`
(alex_parser.py lines 297-340) up to the append: `none` models the three
`continue` paths, otherwise the entry to append together with its
`shared/0` domain path. -/
def alex_sdcard_classify (seen : List PStr) (info : ZipInfo) :
    Option (AndroidBackupFile × PStr) :=
  let name := info.name
  if startsWith name (pstr "backup/sdcard/") ∨ startsWith name (pstr "sdcard/") then
    let rel := if startsWith name (pstr "backup/sdcard/") then name.drop 14 else name.drop 7
    if rel.isEmpty then none
    else
      let domain := pstr "shared/0"
      let is_dir := endsWith name (pstr "/")
      let relStripped := pyRstrip (pstr "/") rel
      let domain_path := if relStripped.isEmpty then domain else domain ++ '/' :: relStripped
      if pyMem domain_path seen then none
      else
        some ({ file_id := pstr "zip:" ++ name, domain := domain,
                relative_path := relStripped,
                file_size := if is_dir then 0 else info.file_size,
                mode := if is_dir then 0o040755 else 0o100644,
                modified_time := none,
                flags := if is_dir then 2 else 1,
                actual_file_size := if is_dir then none else some info.file_size,
                token := [] }, domain_path)
  else none

/-- One iteration of the sdcard merge loop: skip (`continue`) or append the
new `shared/0` entry, remember its domain path, and log it. -/
def alex_sdcard_step (acc : List AndroidBackupFile × List PStr × ParsingLog)
    (info : ZipInfo) : List AndroidBackupFile × List PStr × ParsingLog :=
  let (files, seen, log) := acc
  match alex_sdcard_classify seen info with
  | none => (files, seen, log)
  | some (bf, domain_path) =>
    (files ++ [bf], setAdd seen domain_path,
     log.add_entry bf.file_id bf.domain bf.relative_path
       (if endsWith info.name (pstr "/") then pstr "added_directory" else pstr "added_file")
       (pstr "from " ++ (pySplit '/' info.name).headD [] ++ pstr "/ in ZIP")
       bf.file_size)

/-- The entry-list portion of `ALEXParser.parse`: phase 1 processes the
backup.ab tar members, phase 2 folds in the `backup/sdcard/*` and `sdcard/*`
ZIP entries against the accumulated `seen_domain_paths`. -/
def ALEXParser.parse_files (abMembers : List (PStr × TarMember)) (zinfos : List ZipInfo) :
    List AndroidBackupFile × List PStr × ParsingLog :=
  let acc1 := abMembers.foldl alex_parse_member_step ([], [], ParsingLog.empty)
  let backup_sdcard_entries := zinfos.filter
    (fun i => startsWith i.name (pstr "backup/sdcard/") && !(i.name == pstr "backup/sdcard/"))
  let sdcard_entries := zinfos.filter
    (fun i => startsWith i.name (pstr "sdcard/") && !(i.name == pstr "sdcard/"))
  (backup_sdcard_entries ++ sdcard_entries).foldl alex_sdcard_step acc1

theorem alex_sdcard_classify_spec (seen : List PStr) (info : ZipInfo)
    (bf : AndroidBackupFile) (dp : PStr)
    (h : alex_sdcard_classify seen info = some (bf, dp)) :
    pyMem dp seen = false ∧ bf.full_domain_path = dp := by
  simp only [alex_sdcard_classify] at h
  repeat' split at h
  all_goals
    first
    | (rw [Option.some_inj] at h
       have hbf := congrArg Prod.fst h
       have hdp := congrArg Prod.snd h
       simp only at hbf hdp
       subst hbf
       subst hdp
       refine ⟨?_, ?_⟩
       · simp only [Bool.not_eq_true] at *
         assumption
       · simp only [AndroidBackupFile.full_domain_path]
         split <;> simp_all)
    | cases h

theorem alex_phase1_step_seen (acc : List AndroidBackupFile × List PStr × ParsingLog)
    (item : PStr × TarMember)
    (hacc : ∀ e ∈ acc.1, pyMem e.full_domain_path acc.2.1 = true) :
    ∀ e ∈ (alex_parse_member_step acc item).1,
      pyMem e.full_domain_path (alex_parse_member_step acc item).2.1 = true := by
  obtain ⟨files, seen, log⟩ := acc
  obtain ⟨name, member⟩ := item
  rcases hpt : parse_tar_path name with ⟨domain, tp⟩
  obtain ⟨token, relative_path⟩ := tp
  simp only [alex_parse_member_step, hpt]
  split
  · exact hacc
  · intro e he
    simp only [List.mem_append, List.mem_singleton] at he
    rcases he with he | he
    · exact pyMem_setAdd_mono _ _ _ (hacc e he)
    · subst he
      exact pyMem_setAdd_self _ _

theorem alex_phase1_seen_inv (items : List (PStr × TarMember))
    (acc : List AndroidBackupFile × List PStr × ParsingLog)
    (hacc : ∀ e ∈ acc.1, pyMem e.full_domain_path acc.2.1 = true) :
    ∀ e ∈ (items.foldl alex_parse_member_step acc).1,
      pyMem e.full_domain_path (items.foldl alex_parse_member_step acc).2.1 = true := by
  induction items generalizing acc with
  | nil => exact hacc
  | cons item rest ih =>
    exact ih (alex_parse_member_step acc item) (alex_phase1_step_seen acc item hacc)

theorem alex_merge_inv (entries : List ZipInfo)
    (files : List AndroidBackupFile) (seen : List PStr) (log : ParsingLog)
    (hseen : ∀ e ∈ files, pyMem e.full_domain_path seen = true)
    (hnd : (files.map AndroidBackupFile.full_domain_path).Nodup) :
    ((entries.foldl alex_sdcard_step (files, seen, log)).1.map
        AndroidBackupFile.full_domain_path).Nodup
    ∧ (∀ e ∈ (entries.foldl alex_sdcard_step (files, seen, log)).1,
        e.full_domain_path ∈ files.map AndroidBackupFile.full_domain_path → e ∈ files)
    ∧ (∀ e ∈ files, e ∈ (entries.foldl alex_sdcard_step (files, seen, log)).1) := by
  induction entries generalizing files seen log with
  | nil =>
    exact ⟨hnd, fun e he _ => he, fun e he => he⟩
  | cons info rest ih =>
    rw [List.foldl_cons]
    cases hc : alex_sdcard_classify seen info with
    | none =>
      have hstep : alex_sdcard_step (files, seen, log) info = (files, seen, log) := by
        simp [alex_sdcard_step, hc]
      rw [hstep]
      exact ih files seen log hseen hnd
    | some pair =>
      obtain ⟨bf, dp⟩ := pair
      obtain ⟨hnotseen, hfdp⟩ := alex_sdcard_classify_spec seen info bf dp hc
      have hstep : alex_sdcard_step (files, seen, log) info
          = (files ++ [bf], setAdd seen dp,
             log.add_entry bf.file_id bf.domain bf.relative_path
               (if endsWith info.name (pstr "/") then pstr "added_directory"
                else pstr "added_file")
               (pstr "from " ++ (pySplit '/' info.name).headD [] ++ pstr "/ in ZIP")
               bf.file_size) := by
        simp [alex_sdcard_step, hc]
      rw [hstep]
      have hdp_not : dp ∉ files.map AndroidBackupFile.full_domain_path := by
        intro hin
        obtain ⟨e, he, hfe⟩ := List.mem_map.1 hin
        have hm := hseen e he
        rw [hfe, hnotseen] at hm
        cases hm
      have hseen' : ∀ e ∈ files ++ [bf],
          pyMem e.full_domain_path (setAdd seen dp) = true := by
        intro e he
        rcases List.mem_append.1 he with he | he
        · exact pyMem_setAdd_mono _ _ _ (hseen e he)
        · rw [List.mem_singleton] at he
          subst he
          rw [hfdp]
          exact pyMem_setAdd_self _ _
      have hnd' : ((files ++ [bf]).map AndroidBackupFile.full_domain_path).Nodup := by
        rw [List.map_append]
        rw [List.nodup_append]
        refine ⟨hnd, by simp, ?_⟩
        intro a ha hb
        simp only [List.map_cons, List.map_nil, List.mem_singleton] at hb
        subst hb
        rw [hfdp] at ha
        exact hdp_not ha
      obtain ⟨ihnd, ihwin, ihsub⟩ := ih (files ++ [bf]) (setAdd seen dp) _ hseen' hnd'
      refine ⟨ihnd, ?_, ?_⟩
      · intro e he hm
        have hee : e ∈ files ++ [bf] := by
          apply ihwin e he
          rw [List.map_append]
          exact List.mem_append_left _ hm
        rcases List.mem_append.1 hee with h' | h'
        · exact h'
        · rw [List.mem_singleton] at h'
          subst h'
          rw [hfdp] at hm
          exact absurd hm hdp_not
      · intro e he
        exact ihsub e (List.mem_append_left _ he)

/-- Claim C8: in the ALEX decoder, every `backup/sdcard/*` and `sdcard/*` ZIP
entry whose `shared/0` domain path collides with an entry already produced
from backup.ab (or with an earlier ZIP sdcard entry) is dropped: provided the
backup.ab phase produced pairwise-distinct full domain paths, the final entry
list carries each full domain path exactly once, every backup.ab entry
survives, and any surviving entry whose path already belonged to a backup.ab
entry is that backup.ab entry itself (`.ab` wins). -/
theorem alex_sdcard_dedup (abMembers : List (PStr × TarMember)) (zinfos : List ZipInfo)
    (hnd : ((abMembers.foldl alex_parse_member_step ([], [], ParsingLog.empty)).1.map
        AndroidBackupFile.full_domain_path).Nodup) :
    ((ALEXParser.parse_files abMembers zinfos).1.map
        AndroidBackupFile.full_domain_path).Nodup
    ∧ (∀ e ∈ (ALEXParser.parse_files abMembers zinfos).1,
        e.full_domain_path
          ∈ (abMembers.foldl alex_parse_member_step ([], [], ParsingLog.empty)).1.map
              AndroidBackupFile.full_domain_path →
        e ∈ (abMembers.foldl alex_parse_member_step ([], [], ParsingLog.empty)).1)
    ∧ (∀ e ∈ (abMembers.foldl alex_parse_member_step ([], [], ParsingLog.empty)).1,
        e ∈ (ALEXParser.parse_files abMembers zinfos).1) := by
  have hseen := alex_phase1_seen_inv abMembers ([], [], ParsingLog.empty)
    (by intro e he; cases he)
  exact alex_merge_inv _ _ _ _ hseen hnd

/-- backup.ab members for the claim C8 witness: one shared-storage file. -/
def c8Members : List (PStr × TarMember) :=
  [ (pstr "shared/0/photo.jpg",
     { name := pstr "shared/0/photo.jpg", mode := 0o100644, size := 5, mtime := 0,
       typ := TarMemberType.regular }) ]

/-- ZIP entries for the claim C8 witness: the same file again under
`backup/sdcard/`, plus a genuinely new one. -/
def c8Zips : List ZipInfo :=
  [ { name := pstr "backup/sdcard/photo.jpg", file_size := 5 },
    { name := pstr "sdcard/extra.txt", file_size := 3 } ]

/-- The backup.ab-derived entry the claim C8 witness tracks. -/
def c8AbEntry : AndroidBackupFile :=
  { file_id := pstr "shared/0/photo.jpg", domain := pstr "shared/0",
    relative_path := pstr "photo.jpg", file_size := 5, mode := 0o100644,
    modified_time := none, flags := 1, actual_file_size := some 5, token := [] }

/-- Claim C8, witness: the deduplication theorem applied at a concrete
extraction where the ZIP duplicates the `.ab`'s `shared/0/photo.jpg`. -/
theorem alex_sdcard_dedup_witness :
    ((ALEXParser.parse_files c8Members c8Zips).1.map
        AndroidBackupFile.full_domain_path).Nodup
    ∧ c8AbEntry ∈ (ALEXParser.parse_files c8Members c8Zips).1 := by
  obtain ⟨a, b, c⟩ := alex_sdcard_dedup c8Members c8Zips (by decide)
  exact ⟨a, c c8AbEntry (by decide)⟩

/-! ### Path mappers (path_mapper.py) -/

/-- `MappingStatus` from path_mapper.py. -/
inductive MappingStatus
  | MAPPED
  | NOT_FOUND
  | UNMAPPABLE
  | DIRECTORY
deriving Repr, DecidableEq

/-- `PathMapping` from path_mapper.py, generic in the backup-entry type the
three mappers feed it. -/
structure PathMapping (β : Type) where
  backup_file : β
  filesystem_path : Option PStr
  filesystem_file : Option FilesystemFile
  status : MappingStatus
  notes : PStr
deriving Repr, DecidableEq

/-- `MappingStatistics` from path_mapper.py; the Python float coverage is
modelled as an exact rational. -/
structure MappingStatistics where
  total_backup_files : Nat
  total_backup_directories : Nat
  total_filesystem_files : Nat
  total_filesystem_directories : Nat
  mapped_files : Nat
  not_found_files : Nat
  unmappable_files : Nat
  backup_only_files : Nat
  filesystem_only_files : Nat
  backup_coverage_percent : Rat
  manifest_db_row_count : Nat
deriving Repr, DecidableEq

/-- The freshly constructed `MappingStatistics()`. -/
def MappingStatistics.empty : MappingStatistics :=
  { total_backup_files := 0, total_backup_directories := 0,
    total_filesystem_files := 0, total_filesystem_directories := 0,
    mapped_files := 0, not_found_files := 0, unmappable_files := 0,
    backup_only_files := 0, filesystem_only_files := 0,
    backup_coverage_percent := 0, manifest_db_row_count := 0 }

/-- Python `s.split(sep, 1)` as a pair (text before the first separator,
text after it; the second component is empty when the separator is absent). -/
def pySplitFirst (sep : Char) (s : PStr) : PStr × PStr :=
  (s.takeWhile (fun c => c != sep), (s.dropWhile (fun c => c != sep)).drop 1)

/-- Python `s.rsplit(sep, 1)[0]`: everything before the last separator, or
the whole string when the separator is absent. -/
def pyRsplit1Head (sep : Char) (s : PStr) : PStr :=
  if s.contains sep then ((s.reverse.dropWhile (fun c => c != sep)).drop 1).reverse
  else s

/-- `PathMapper.DOMAIN_MAPPINGS` from path_mapper.py. -/
def DOMAIN_MAPPINGS : List (PStr × PStr) :=
  [ (pstr "KeychainDomain", pstr "/private/var/Keychains"),
    (pstr "CameraRollDomain", pstr "/private/var/mobile"),
    (pstr "MobileDeviceDomain", pstr "/private/var/MobileDevice"),
    (pstr "WirelessDomain", pstr "/private/var/wireless"),
    (pstr "InstallDomain", pstr "/private/var/installd"),
    (pstr "KeyboardDomain", pstr "/private/var/mobile"),
    (pstr "HomeDomain", pstr "/private/var/mobile"),
    (pstr "SystemPreferencesDomain", pstr "/private/var/preferences"),
    (pstr "DatabaseDomain", pstr "/private/var/db"),
    (pstr "TonesDomain", pstr "/private/var/mobile"),
    (pstr "RootDomain", pstr "/private/var/root"),
    (pstr "BooksDomain", pstr "/private/var/mobile/Media/Books"),
    (pstr "ManagedPreferencesDomain", pstr "/private/var/Managed Preferences"),
    (pstr "HomeKitDomain", pstr "/private/var/mobile"),
    (pstr "MediaDomain", pstr "/private/var/mobile"),
    (pstr "HealthDomain", pstr "/private/var/mobile/Library"),
    (pstr "ProtectedDomain", pstr "/private/var/protected"),
    (pstr "NetworkDomain", pstr "/private/var/networkd"),
    (pstr "AppDomain", pstr "/private/var/mobile/Containers/Data/Application"),
    (pstr "AppDomainGroup", pstr "/private/var/mobile/Containers/Shared/AppGroup"),
    (pstr "AppDomainPlugin", pstr "/private/var/mobile/Containers/Data/PluginKitPlugin"),
    (pstr "SysContainerDomain", pstr "/private/var/containers/Data/System"),
    (pstr "SysSharedContainerDomain", pstr "/private/var/containers/Shared/SystemGroup"),
    (pstr "Filesystem", pstr "/private/var/mobile/Media") ]

/-- `PathMapper._parse_domain`: split `Domain-Identifier` on the first hyphen. -/
def PathMapper.parse_domain (domain : PStr) : PStr × Option PStr :=
  if domain.contains '-' then
    let parts := pySplitFirst '-' domain
    (parts.1, some parts.2)
  else (domain, none)

/-- `PathMapper._get_container_guid`: look the bundle id up in the typed
container mapping selected by `domain_type`. -/
def PathMapper.get_container_guid (filesystem : FilesystemAcquisition)
    (bundle_id : PStr) (domain_type : PStr) : Option PStr :=
  if domain_type = pstr "app" then dictGet filesystem.app_container_mapping bundle_id
  else if domain_type = pstr "group" then dictGet filesystem.group_container_mapping bundle_id
  else if domain_type = pstr "plugin" then dictGet filesystem.plugin_container_mapping bundle_id
  else if domain_type = pstr "system" then dictGet filesystem.system_container_mapping bundle_id
  else if domain_type = pstr "system_group" then dictGet filesystem.system_group_mapping bundle_id
  else none

/-- `PathMapper._map_domain_path`.  The app-container and system-container
blocks only return when an identifier is present; otherwise control falls
through to the standard `DOMAIN_MAPPINGS` table (modelled with the two
intermediate `Option` results). -/
def PathMapper.map_domain_path (filesystem : FilesystemAcquisition)
    (backup_file : BackupFile) : Option PStr × PStr :=
  let pd := PathMapper.parse_domain backup_file.domain
  let base_domain := pd.1
  let identifier := pd.2
  let appResult : Option (Option PStr × PStr) :=
    if base_domain = pstr "AppDomain" ∨ base_domain = pstr "AppDomainGroup"
        ∨ base_domain = pstr "AppDomainPlugin" then
      match identifier with
      | some ident =>
        let domain_type :=
          if base_domain = pstr "AppDomain" then pstr "app"
          else if base_domain = pstr "AppDomainGroup" then pstr "group"
          else pstr "plugin"
        match PathMapper.get_container_guid filesystem ident domain_type with
        | some guid =>
          let base_path :=
            if base_domain = pstr "AppDomain" then
              pstr "/private/var/mobile/Containers/Data/Application/" ++ guid
            else if base_domain = pstr "AppDomainGroup" then
              pstr "/private/var/mobile/Containers/Shared/AppGroup/" ++ guid
            else pstr "/private/var/mobile/Containers/Data/PluginKitPlugin/" ++ guid
          let notes := pstr "Resolved via container mapping: " ++ ident ++ pstr " -> " ++ guid
          if backup_file.relative_path.isEmpty = false then
            some (some (base_path ++ '/' :: backup_file.relative_path), notes)
          else some (some base_path, notes)
        | none =>
          let base_path :=
            if base_domain = pstr "AppDomain" then
              pstr "/private/var/mobile/Containers/Data/Application/" ++ ident
            else if base_domain = pstr "AppDomainGroup" then
              pstr "/private/var/mobile/Containers/Shared/AppGroup/" ++ ident
            else pstr "/private/var/mobile/Containers/Data/PluginKitPlugin/" ++ ident
          let notes := pstr "Using bundle ID as fallback (GUID not found): " ++ ident
          if backup_file.relative_path.isEmpty = false then
            some (some (base_path ++ '/' :: backup_file.relative_path), notes)
          else some (some base_path, notes)
      | none => none
    else none
  match appResult with
  | some r => r
  | none =>
    let sysResult : Option (Option PStr × PStr) :=
      if base_domain = pstr "SysContainerDomain"
          ∨ base_domain = pstr "SysSharedContainerDomain" then
        match identifier with
        | some ident =>
          let domain_type :=
            if base_domain = pstr "SysContainerDomain" then pstr "system"
            else pstr "system_group"
          match PathMapper.get_container_guid filesystem ident domain_type with
          | some guid =>
            let base_path :=
              if base_domain = pstr "SysContainerDomain" then
                pstr "/private/var/containers/Data/System/" ++ guid
              else pstr "/private/var/containers/Shared/SystemGroup/" ++ guid
            let notes := pstr "Resolved via container mapping: " ++ ident ++ pstr " -> " ++ guid
            if backup_file.relative_path.isEmpty = false then
              some (some (base_path ++ '/' :: backup_file.relative_path), notes)
            else some (some base_path, notes)
          | none =>
            let base_path :=
              if base_domain = pstr "SysContainerDomain" then
                pstr "/private/var/containers/Data/System/" ++ ident
              else pstr "/private/var/containers/Shared/SystemGroup/" ++ ident
            let notes := pstr "Using identifier as fallback (GUID not found): " ++ ident
            if backup_file.relative_path.isEmpty = false then
              some (some (base_path ++ '/' :: backup_file.relative_path), notes)
            else some (some base_path, notes)
        | none => none
      else none
    match sysResult with
    | some r => r
    | none =>
      match dictGet DOMAIN_MAPPINGS base_domain with
      | some base_path =>
        if backup_file.relative_path.isEmpty = false then
          (some (base_path ++ '/' :: backup_file.relative_path), [])
        else (some base_path, [])
      | none => (none, pstr "Unknown domain: " ++ backup_file.domain)

/-- The inner loop of `map_all`'s backup-directory derivation: every prefix of
the directory path, domain-qualified, joins the set. -/
def addPrefixDirs (domain : PStr) (parts : List PStr) (s : List PStr) : List PStr :=
  (List.range parts.length).foldl
    (fun s i => setAdd s (domain ++ '/' :: joinSlash (parts.take (i + 1)))) s

/-- The first statistics pass shared by the iOS and Android `map_all`: count
non-directory backup files and collect the implied backup directory paths. -/
def countBackupFiles (files : List AndroidBackupFile) : Nat × List PStr :=
  files.foldl (fun acc bf =>
    if bf.is_directory = false then
      let acc1 : Nat × List PStr := (acc.1 + 1, acc.2)
      let acc2 : Nat × List PStr :=
        if bf.relative_path.isEmpty = false ∧ bf.relative_path.contains '/' then
          let dir_path := pyRsplit1Head '/' bf.relative_path
          let parts := pySplit '/' dir_path
          (acc1.1, addPrefixDirs bf.domain parts acc1.2)
        else acc1
      (acc2.1, setAdd acc2.2 bf.domain)
    else acc) (0, [])

/-- Same pass over iOS `BackupFile` lists. -/
def countBackupFilesIos (files : List BackupFile) : Nat × List PStr :=
  files.foldl (fun acc bf =>
    if bf.is_directory = false then
      let acc1 : Nat × List PStr := (acc.1 + 1, acc.2)
      let acc2 : Nat × List PStr :=
        if bf.relative_path.isEmpty = false ∧ bf.relative_path.contains '/' then
          let dir_path := pyRsplit1Head '/' bf.relative_path
          let parts := pySplit '/' dir_path
          (acc1.1, addPrefixDirs bf.domain parts acc1.2)
        else acc1
      (acc2.1, setAdd acc2.2 bf.domain)
    else acc) (0, [])

/-- `PathMapper.map_all` as a transformer of the mapper's
`(mappings, statistics)` state: `mappings` is rebuilt from scratch, but the
statistics counters marked `+=` in the source keep accumulating onto the
existing `statistics` object (only `manifest_db_row_count`,
`total_backup_directories`, `backup_only_files` and the coverage are plain
assignments). -/
def PathMapper.map_all (backup : iOSBackup) (filesystem : FilesystemAcquisition)
    (st : List (PathMapping BackupFile) × MappingStatistics) :
    List (PathMapping BackupFile) × MappingStatistics :=
  let stats0 := { st.2 with manifest_db_row_count := backup.manifest_db_row_count }
  let count1 := countBackupFilesIos backup.files
  let stats1 := { stats0 with
    total_backup_files := stats0.total_backup_files + count1.1,
    total_backup_directories := count1.2.length }
  let fsDirs := (filesystem.files.filter (fun ff => ff.is_directory)).length
  let fsFiles := (filesystem.files.filter (fun ff => ff.is_directory = false)).length
  let stats2 := { stats1 with
    total_filesystem_directories := stats1.total_filesystem_directories + fsDirs,
    total_filesystem_files := stats1.total_filesystem_files + fsFiles }
  let loop := backup.files.foldl
    (fun (acc : List (PathMapping BackupFile) × MappingStatistics × List PStr) backup_file =>
      let (maps, stats, mapped_fs_paths) := acc
      if backup_file.is_directory then acc
      else
        let mr := PathMapper.map_domain_path filesystem backup_file
        match mr.1 with
        | none =>
          (maps ++ [{ backup_file := backup_file, filesystem_path := none,
                      filesystem_file := none, status := MappingStatus.UNMAPPABLE,
                      notes := mr.2 }],
           { stats with unmappable_files := stats.unmappable_files + 1 },
           mapped_fs_paths)
        | some fsp =>
          match filesystem.find_file fsp with
          | some fs_file =>
            (maps ++ [{ backup_file := backup_file, filesystem_path := some fsp,
                        filesystem_file := some fs_file, status := MappingStatus.MAPPED,
                        notes := mr.2 }],
             { stats with mapped_files := stats.mapped_files + 1 },
             setAdd mapped_fs_paths fs_file.normalized_path)
          | none =>
            (maps ++ [{ backup_file := backup_file, filesystem_path := some fsp,
                        filesystem_file := none, status := MappingStatus.NOT_FOUND,
                        notes := mr.2 }],
             { stats with not_found_files := stats.not_found_files + 1 },
             mapped_fs_paths))
    ([], stats2, [])
  let stats3 : MappingStatistics := loop.2.1
  let stats4 : MappingStatistics := { stats3 with
    backup_only_files := stats3.not_found_files + stats3.unmappable_files }
  let fs_only := (filesystem.files.filter (fun ff =>
      ff.is_directory = false ∧ pyMem ff.normalized_path loop.2.2 = false)).length
  let stats5 : MappingStatistics := { stats4 with
    filesystem_only_files := stats4.filesystem_only_files + fs_only }
  let stats6 : MappingStatistics :=
    if 0 < stats5.total_filesystem_files then
      { stats5 with backup_coverage_percent :=
          (stats5.mapped_files : Rat) / (stats5.total_filesystem_files : Rat) * 100 }
    else stats5
  (loop.1, stats6)

/-- Backup entry for the claim C3 counterexample. -/
def c3BackupFile : BackupFile :=
  { file_id := pstr "ab12", domain := pstr "HomeDomain",
    relative_path := pstr "Library/SMS/sms.db", file_size := 1024, mode := 0o100644,
    modified_time := none, flags := 1, actual_file_size := some 1024 }

/-- Backup container for the claim C3 counterexample. -/
def c3Backup : iOSBackup :=
  { path := pstr "/backup", device_name := pstr "iPhone", is_encrypted := false,
    is_zipped := false, files := [c3BackupFile], manifest_db_row_count := 1,
    parsing_log := ParsingLog.empty, backup_handle := none, zip_handle := none,
    password := none }

/-- Filesystem entry for the claim C3 counterexample. -/
def c3FsFile : FilesystemFile :=
  { path := pstr "/private/var/mobile/Library/SMS/sms.db", size := 1024,
    is_directory := false, modified_time := none, platform := pstr "ios" }

/-- Filesystem acquisition for the claim C3 counterexample. -/
def c3Fs : FilesystemAcquisition :=
  { path := pstr "/fs", format := pstr "tar", platform := pstr "ios",
    files := [c3FsFile], file_index := [], app_container_mapping := [],
    group_container_mapping := [], plugin_container_mapping := [],
    system_container_mapping := [], system_group_mapping := [],
    container_mapping := [] }

/-- The mapper state `__init__` creates. -/
def c3Init : List (PathMapping BackupFile) × MappingStatistics :=
  ([], MappingStatistics.empty)

/-- Claim C3, counterexample: running the iOS `PathMapper.map_all` twice on
unchanged inputs does **not** reproduce the statistics — `map_all` resets
`self.mappings` but keeps `+=`-accumulating into the existing
`self.statistics`, so the second run doubles `total_backup_files` (1 to 2)
and the two `MappingStatistics` differ. -/
theorem pathMapper_map_all_not_idempotent :
    (PathMapper.map_all c3Backup c3Fs c3Init).2.total_backup_files = 1
  ∧ (PathMapper.map_all c3Backup c3Fs
       (PathMapper.map_all c3Backup c3Fs c3Init)).2.total_backup_files = 2
  ∧ (PathMapper.map_all c3Backup c3Fs
       (PathMapper.map_all c3Backup c3Fs c3Init)).2
     ≠ (PathMapper.map_all c3Backup c3Fs c3Init).2 := by decide

/-! ### Android path mapper (android_path_mapper.py) -/

/-- Bounded-fuel `s.replace(old, new)` (the fuel is the input length, enough
for every recursion step that consumes at least one character). -/
def pyReplaceAux (old new : PStr) : Nat → PStr → PStr
  | 0, s => s
  | _ + 1, [] => []
  | fuel + 1, c :: rest =>
    if old.isEmpty = false ∧ old.isPrefixOf (c :: rest) then
      new ++ pyReplaceAux old new fuel ((c :: rest).drop old.length)
    else c :: pyReplaceAux old new fuel rest

/-- Python `s.replace(old, new)`. -/
def pyReplace (s old new : PStr) : PStr := pyReplaceAux old new s.length s

/-- The `_apk_dir_cache` dict: package name to resolved directory (or `None`). -/
abbrev ApkCache := List (PStr × Option PStr)

/-- `AndroidPathMapper._resolve_apk_dir`: return the cached resolution when
present, otherwise scan the filesystem index keys (in insertion order) for
`/data/app/<package>-*`, cache and return the directory name (or `None`). -/
def AndroidPathMapper.resolve_apk_dir (filesystem : FilesystemAcquisition)
    (cache : ApkCache) (package_name : PStr) : Option PStr × ApkCache :=
  match dictGet cache package_name with
  | some v => (v, cache)
  | none =>
    let pre := pstr "/data/app/" ++ package_name ++ pstr "-"
    match (filesystem.file_index.map Prod.fst).find? (fun path => startsWith path pre) with
    | some path =>
      let after_data_app := path.drop 10
      let dir_name := (pySplit '/' after_data_app).headD []
      (some dir_name, dictSet cache package_name (some dir_name))
    | none => (none, dictSet cache package_name none)

/-- `AndroidPathMapper._map_backup_file`, threading the APK cache. -/
def AndroidPathMapper.map_backup_file (filesystem : FilesystemAcquisition)
    (cache : ApkCache) (backup_file : AndroidBackupFile) :
    (Option PStr × PStr) × ApkCache :=
  let token := backup_file.token
  let domain := backup_file.domain
  if UNMAPPABLE_TOKENS.contains token then
    ((none, pstr "Token '" ++ token ++ pstr "' has no filesystem equivalent"), cache)
  else if startsWith domain (pstr "shared/") then
    let user_id := if domain.contains '/' then (pySplitFirst '/' domain).2 else pstr "0"
    if backup_file.relative_path.isEmpty = false then
      ((some (pstr "/data/media/" ++ user_id ++ '/' :: backup_file.relative_path),
        pstr "Shared storage"), cache)
    else ((some (pstr "/data/media/" ++ user_id), pstr "Shared storage root"), cache)
  else if token.isEmpty then
    ((none, pstr "Package root entry (no token)"), cache)
  else if token = pstr "a" then
    let rc := AndroidPathMapper.resolve_apk_dir filesystem cache domain
    let remaining :=
      if backup_file.relative_path.contains '/' then
        (pySplitFirst '/' backup_file.relative_path).2
      else []
    match rc.1 with
    | some apk_dir =>
      let fs_path :=
        if remaining.isEmpty = false then pstr "/data/app/" ++ apk_dir ++ '/' :: remaining
        else pstr "/data/app/" ++ apk_dir
      ((some fs_path, pstr "APK dir resolved: " ++ apk_dir), rc.2)
    | none =>
      let fs_path :=
        if remaining.isEmpty = false then pstr "/data/app/" ++ domain ++ '/' :: remaining
        else pstr "/data/app/" ++ domain
      ((some fs_path, pstr "APK dir suffix not found (using package name as fallback)"),
       rc.2)
  else
    match dictGet TOKEN_PATH_MAPPINGS token with
    | none => ((none, pstr "Unknown token: " ++ token), cache)
    | some template =>
      let base_path := pyRstrip (pstr "/") (pyReplace template (pstr "{package}") domain)
      let remaining :=
        if backup_file.relative_path.contains '/' then
          (pySplitFirst '/' backup_file.relative_path).2
        else []
      if remaining.isEmpty = false then
        ((some (base_path ++ '/' :: remaining), pstr "Token '" ++ token ++ pstr "' mapping"),
         cache)
      else ((some base_path, pstr "Token '" ++ token ++ pstr "' mapping"), cache)

/-- The body of the per-file loop of `AndroidPathMapper.map_all`, over the
accumulator `(mappings, statistics, mapped_fs_paths, _apk_dir_cache)`. -/
def AndroidPathMapper.map_all_step (filesystem : FilesystemAcquisition)
    (acc : List (PathMapping AndroidBackupFile) × MappingStatistics × List PStr × ApkCache)
    (backup_file : AndroidBackupFile) :
    List (PathMapping AndroidBackupFile) × MappingStatistics × List PStr × ApkCache :=
  let (maps, stats, mapped_fs_paths, cache) := acc
  if backup_file.is_directory then acc
  else
    let mr := AndroidPathMapper.map_backup_file filesystem cache backup_file
    match mr.1.1 with
    | none =>
      (maps ++ [{ backup_file := backup_file, filesystem_path := none,
                  filesystem_file := none, status := MappingStatus.UNMAPPABLE,
                  notes := mr.1.2 }],
       { stats with unmappable_files := stats.unmappable_files + 1 },
       mapped_fs_paths, mr.2)
    | some fsp =>
      match filesystem.find_file fsp with
      | some fs_file =>
        (maps ++ [{ backup_file := backup_file, filesystem_path := some fsp,
                    filesystem_file := some fs_file, status := MappingStatus.MAPPED,
                    notes := mr.1.2 }],
         { stats with mapped_files := stats.mapped_files + 1 },
         setAdd mapped_fs_paths fs_file.normalized_path, mr.2)
      | none =>
        (maps ++ [{ backup_file := backup_file, filesystem_path := some fsp,
                    filesystem_file := none, status := MappingStatus.NOT_FOUND,
                    notes := mr.1.2 }],
         { stats with not_found_files := stats.not_found_files + 1 },
         mapped_fs_paths, mr.2)

/-- The tail of `AndroidPathMapper.map_all` after the per-file loop:
`backup_only_files`, `filesystem_only_files` and the coverage. -/
def AndroidPathMapper.map_all_finish (filesystem : FilesystemAcquisition)
    (loop : List (PathMapping AndroidBackupFile) × MappingStatistics × List PStr × ApkCache) :
    List (PathMapping AndroidBackupFile) × MappingStatistics × ApkCache :=
  let stats3 : MappingStatistics := loop.2.1
  let stats4 : MappingStatistics := { stats3 with
    backup_only_files := stats3.not_found_files + stats3.unmappable_files }
  let fs_only := (filesystem.files.filter (fun ff =>
      ff.is_directory = false ∧ pyMem ff.normalized_path loop.2.2.1 = false)).length
  let stats5 : MappingStatistics := { stats4 with
    filesystem_only_files := stats4.filesystem_only_files + fs_only }
  let stats6 : MappingStatistics :=
    if 0 < stats5.total_filesystem_files then
      { stats5 with backup_coverage_percent :=
          (stats5.mapped_files : Rat) / (stats5.total_filesystem_files : Rat) * 100 }
    else stats5
  (loop.1, stats6, loop.2.2.2)

/-- `AndroidPathMapper.map_all` as a transformer of the mapper's
`(mappings, statistics, _apk_dir_cache)` state: mappings **and** statistics
are rebuilt from scratch, and only the APK cache persists between runs. -/
def AndroidPathMapper.map_all (backup : AndroidBackup)
    (filesystem : FilesystemAcquisition)
    (st : List (PathMapping AndroidBackupFile) × MappingStatistics × ApkCache) :
    List (PathMapping AndroidBackupFile) × MappingStatistics × ApkCache :=
  let stats0 : MappingStatistics :=
    { MappingStatistics.empty with manifest_db_row_count := backup.manifest_db_row_count }
  let count1 := countBackupFiles backup.files
  let stats1 : MappingStatistics := { stats0 with
    total_backup_files := stats0.total_backup_files + count1.1,
    total_backup_directories := count1.2.length }
  let fsDirs := (filesystem.files.filter (fun ff => ff.is_directory)).length
  let fsFiles := (filesystem.files.filter (fun ff => ff.is_directory = false)).length
  let stats2 : MappingStatistics := { stats1 with
    total_filesystem_directories := stats1.total_filesystem_directories + fsDirs,
    total_filesystem_files := stats1.total_filesystem_files + fsFiles }
  AndroidPathMapper.map_all_finish filesystem
    (backup.files.foldl (AndroidPathMapper.map_all_step filesystem)
      ([], stats2, [], st.2.2))

/-! ### Filesystem-to-filesystem mapper (filesystem_mapper.py) -/

/-- `extract_domain_from_path` from filesystem_mapper.py.  Out-of-range list
subscripts in the source (reachable only for degenerate paths such as
`/data` on Android, where Python would raise IndexError) are modelled with
empty-string defaults. -/
def extract_domain_from_path (path : PStr) (platform : PStr) : PStr × PStr :=
  let parts := pySplit '/' (pyStrip (pstr "/") path)
  if parts.isEmpty ∨ parts = [[]] then ([], [])
  else if platform = pstr "android" then
    if 3 ≤ parts.length ∧ parts.headD [] = pstr "data" ∧ parts.getD 1 [] = pstr "data" then
      (parts.getD 2 [], if 3 < parts.length then joinSlash (parts.drop 3) else [])
    else if 4 ≤ parts.length ∧ parts.headD [] = pstr "data"
        ∧ parts.getD 1 [] = pstr "user" then
      (parts.getD 3 [], if 4 < parts.length then joinSlash (parts.drop 4) else [])
    else if 3 ≤ parts.length ∧ parts.headD [] = pstr "data"
        ∧ parts.getD 1 [] = pstr "app" then
      (pyRsplit1Head '-' (parts.getD 2 []),
       if 3 < parts.length then joinSlash (parts.drop 3) else [])
    else if parts.headD [] = pstr "sdcard" then
      (pstr "shared/0", if 1 < parts.length then joinSlash (parts.drop 1) else [])
    else if parts.headD [] = pstr "storage" ∧ 3 ≤ parts.length
        ∧ parts.getD 1 [] = pstr "emulated" then
      (pstr "shared/0", if 3 < parts.length then joinSlash (parts.drop 3) else [])
    else if parts.headD [] = pstr "data" ∧ parts.getD 1 [] = pstr "media"
        ∧ 3 ≤ parts.length then
      (pstr "shared/0", if 3 < parts.length then joinSlash (parts.drop 3) else [])
    else if 2 ≤ parts.length then (parts.headD [], joinSlash (parts.drop 1))
    else (parts.headD [], [])
  else if platform = pstr "ios" then
    let stripped := if parts.headD [] = pstr "private" then parts.drop 1 else parts
    if 6 ≤ stripped.length
        ∧ stripped.take 4 = [pstr "var", pstr "mobile", pstr "Containers", pstr "Data"]
        ∧ stripped.getD 4 [] = pstr "Application" then
      (pstr "AppContainer-" ++ stripped.getD 5 [],
       if 6 < stripped.length then joinSlash (stripped.drop 6) else [])
    else if 6 ≤ stripped.length
        ∧ stripped.take 4 = [pstr "var", pstr "mobile", pstr "Containers", pstr "Shared"]
        ∧ stripped.getD 4 [] = pstr "AppGroup" then
      (pstr "AppGroup-" ++ stripped.getD 5 [],
       if 6 < stripped.length then joinSlash (stripped.drop 6) else [])
    else if 2 ≤ stripped.length ∧ stripped.headD [] = pstr "var"
        ∧ stripped.getD 1 [] = pstr "mobile" then
      (pstr "HomeDomain", if 2 < stripped.length then joinSlash (stripped.drop 2) else [])
    else if 2 ≤ parts.length then (parts.headD [], joinSlash (parts.drop 1))
    else (parts.headD [], [])
  else if 2 ≤ parts.length then (parts.headD [], joinSlash (parts.drop 1))
  else (parts.headD [], [])

/-- `FilesystemAsBackupFile` from filesystem_mapper.py. -/
structure FilesystemAsBackupFile where
  fs_file : FilesystemFile
  domain : PStr
  relative_path : PStr
  file_id : PStr
  file_size : Nat
  actual_file_size : Nat
  mode : Nat
  modified_time : Nat
  flags : Nat
deriving Repr, DecidableEq

/-- The `FilesystemAsBackupFile` constructor body. -/
def FilesystemAsBackupFile.make (fs_file : FilesystemFile) (platform : PStr) :
    FilesystemAsBackupFile :=
  let dr := extract_domain_from_path fs_file.normalized_path platform
  { fs_file := fs_file, domain := dr.1, relative_path := dr.2,
    file_id := fs_file.path, file_size := fs_file.size,
    actual_file_size := fs_file.size,
    mode := if fs_file.is_directory then 0o40755 else 0o100644,
    modified_time := match fs_file.modified_time with | some t => t | none => 0,
    flags := if fs_file.is_directory then 2 else 1 }

/-- `is_directory` of the wrapper delegates to the wrapped entry. -/
def FilesystemAsBackupFile.is_directory (f : FilesystemAsBackupFile) : Bool :=
  f.fs_file.is_directory

/-- Python `os.path.basename`. -/
def pyBasename (p : PStr) : PStr := (pySplit '/' p).getLastD []

/-- `FilesystemAsBackup` from filesystem_mapper.py. -/
structure FilesystemAsBackup where
  acquisition : FilesystemAcquisition
  path : PStr
  backup_type : PStr
  is_encrypted : Bool
  is_zipped : Bool
  platform : PStr
  device_name : PStr
  files : List FilesystemAsBackupFile
deriving Repr, DecidableEq

/-- The `FilesystemAsBackup` constructor body. -/
def FilesystemAsBackup.make (acq : FilesystemAcquisition) : FilesystemAsBackup :=
  { acquisition := acq, path := acq.path, backup_type := pstr "filesystem",
    is_encrypted := false, is_zipped := acq.format = pstr "zip",
    platform := acq.platform, device_name := pyBasename acq.path,
    files := acq.files.map (fun f => FilesystemAsBackupFile.make f acq.platform) }

/-- `FilesystemMapper.map_all` as a transformer of the mapper's
`(mappings, statistics)` state: both are rebuilt from scratch, and the
reference index is rebuilt before matching. -/
def FilesystemMapper.map_all (backup : FilesystemAsBackup)
    (filesystem : FilesystemAcquisition)
    (st : List (PathMapping FilesystemAsBackupFile) × MappingStatistics) :
    List (PathMapping FilesystemAsBackupFile) × MappingStatistics :=
  let filesystem := filesystem.build_index
  let source_files := backup.files.filter (fun f => f.is_directory = false)
  let source_dirs := backup.files.filter (fun f => f.is_directory)
  let ref_files := filesystem.files.filter (fun f => f.is_directory = false)
  let ref_dirs := filesystem.files.filter (fun f => f.is_directory)
  let stats1 : MappingStatistics := { MappingStatistics.empty with
    total_backup_files := source_files.length,
    total_backup_directories := source_dirs.length,
    total_filesystem_files := ref_files.length,
    total_filesystem_directories := ref_dirs.length,
    manifest_db_row_count := backup.files.length }
  let loop := source_files.foldl
    (fun (acc : List (PathMapping FilesystemAsBackupFile) × Nat × Nat × List PStr) bf =>
      let (maps, mapped, not_found, matched_ref_paths) := acc
      let fs_path := bf.fs_file.normalized_path
      match filesystem.find_file fs_path with
      | some m =>
        (maps ++ [{ backup_file := bf, filesystem_path := some fs_path,
                    filesystem_file := some m, status := MappingStatus.MAPPED,
                    notes := [] }],
         mapped + 1, not_found, setAdd matched_ref_paths m.normalized_path)
      | none =>
        (maps ++ [{ backup_file := bf, filesystem_path := some fs_path,
                    filesystem_file := none, status := MappingStatus.NOT_FOUND,
                    notes := pstr "Not found in reference filesystem" }],
         mapped, not_found + 1, matched_ref_paths))
    ([], 0, 0, [])
  let fs_only := (ref_files.filter
      (fun rf => pyMem rf.normalized_path loop.2.2.2 = false)).length
  let stats2 : MappingStatistics := { stats1 with
    mapped_files := loop.2.1, not_found_files := loop.2.2.1,
    unmappable_files := 0, backup_only_files := loop.2.2.1,
    filesystem_only_files := fs_only }
  let stats3 : MappingStatistics :=
    if 0 < stats2.total_filesystem_files then
      { stats2 with backup_coverage_percent :=
          (loop.2.1 : Rat) / (stats2.total_filesystem_files : Rat) * 100 }
    else stats2
  (loop.1, stats3)

/-! ### Claim C3: idempotence of the Android and filesystem mappers -/

/-- The filesystem scan `_resolve_apk_dir` performs on a cache miss: the first
indexed path under `/data/app/<package>-` determines the APK directory name. -/
def apkScan (filesystem : FilesystemAcquisition) (package_name : PStr) : Option PStr :=
  let pre := pstr "/data/app/" ++ package_name ++ pstr "-"
  match (filesystem.file_index.map Prod.fst).find? (fun path => startsWith path pre) with
  | some path => some ((pySplit '/' (path.drop 10)).headD [])
  | none => none

theorem resolve_apk_dir_eq (fs : FilesystemAcquisition) (c : ApkCache) (p : PStr) :
    AndroidPathMapper.resolve_apk_dir fs c p =
      match dictGet c p with
      | some v => (v, c)
      | none => (apkScan fs p, dictSet c p (apkScan fs p)) := by
  simp only [AndroidPathMapper.resolve_apk_dir, apkScan]
  cases hget : dictGet c p with
  | some v => rfl
  | none =>
    cases hf : (fs.file_index.map Prod.fst).find?
        (fun path => startsWith path (pstr "/data/app/" ++ p ++ pstr "-")) with
    | some path => simp [hf]
    | none => simp [hf]

/-- Resolving `p` first never changes what a later `_resolve_apk_dir` call
returns for any package `q`: the cache only memoises the filesystem scan. -/
theorem resolve_apk_dir_fst_after (fs : FilesystemAcquisition) (c : ApkCache) (p q : PStr) :
    (AndroidPathMapper.resolve_apk_dir fs
        (AndroidPathMapper.resolve_apk_dir fs c p).2 q).1
      = (AndroidPathMapper.resolve_apk_dir fs c q).1 := by
  rw [resolve_apk_dir_eq fs c p]
  cases hp : dictGet c p with
  | some v => rfl
  | none =>
    rw [resolve_apk_dir_eq fs (dictSet c p (apkScan fs p)) q,
        resolve_apk_dir_eq fs c q, dictGet_dictSet]
    by_cases hqp : q = p
    · subst hqp
      rw [if_pos rfl, hp]
    · rw [if_neg hqp]
      cases dictGet c q <;> rfl

/-- Two APK caches are equivalent when `_resolve_apk_dir` answers every
package query identically from both. -/
def ApkCacheEquiv (fs : FilesystemAcquisition) (c c' : ApkCache) : Prop :=
  ∀ q, (AndroidPathMapper.resolve_apk_dir fs c q).1
     = (AndroidPathMapper.resolve_apk_dir fs c' q).1

theorem apkCacheEquiv_refl (fs : FilesystemAcquisition) (c : ApkCache) :
    ApkCacheEquiv fs c c := fun _ => rfl

theorem apkCacheEquiv_trans {fs : FilesystemAcquisition} {c1 c2 c3 : ApkCache}
    (h1 : ApkCacheEquiv fs c1 c2) (h2 : ApkCacheEquiv fs c2 c3) :
    ApkCacheEquiv fs c1 c3 := fun q => (h1 q).trans (h2 q)

theorem apkCacheEquiv_resolve_after (fs : FilesystemAcquisition) (c : ApkCache) (p : PStr) :
    ApkCacheEquiv fs (AndroidPathMapper.resolve_apk_dir fs c p).2 c :=
  fun q => resolve_apk_dir_fst_after fs c p q

theorem apkCacheEquiv_resolve_congr {fs : FilesystemAcquisition} {c c' : ApkCache}
    (h : ApkCacheEquiv fs c c') (p : PStr) :
    ApkCacheEquiv fs (AndroidPathMapper.resolve_apk_dir fs c p).2
                     (AndroidPathMapper.resolve_apk_dir fs c' p).2 :=
  fun q => (resolve_apk_dir_fst_after fs c p q).trans
    ((h q).trans (resolve_apk_dir_fst_after fs c' p q).symm)

/-- `_map_backup_file` run on equivalent caches produces the same mapping
result and leaves the caches equivalent. -/
theorem map_backup_file_congr (fs : FilesystemAcquisition) {c c' : ApkCache}
    (h : ApkCacheEquiv fs c c') (bf : AndroidBackupFile) :
    (AndroidPathMapper.map_backup_file fs c bf).1
      = (AndroidPathMapper.map_backup_file fs c' bf).1
  ∧ ApkCacheEquiv fs (AndroidPathMapper.map_backup_file fs c bf).2
                     (AndroidPathMapper.map_backup_file fs c' bf).2 := by
  simp only [AndroidPathMapper.map_backup_file]
  by_cases h1 : UNMAPPABLE_TOKENS.contains bf.token = true
  · simp only [if_pos h1]; exact ⟨by simp, h⟩
  · simp only [if_neg h1]
    by_cases h2 : startsWith bf.domain (pstr "shared/") = true
    · simp only [if_pos h2]
      constructor
      · rw [apply_ite Prod.fst, apply_ite Prod.fst]
      · rw [apply_ite Prod.snd, apply_ite Prod.snd, ite_self, ite_self]; exact h
    · simp only [if_neg h2]
      by_cases h4 : bf.token.isEmpty = true
      · simp only [if_pos h4]; exact ⟨by simp, h⟩
      · simp only [if_neg h4]
        by_cases h5 : bf.token = pstr "a"
        · simp only [if_pos h5]
          have hfst := h bf.domain
          have hequiv := apkCacheEquiv_resolve_congr h bf.domain
          cases hr : (AndroidPathMapper.resolve_apk_dir fs c' bf.domain).1 with
          | some ad =>
            have hl : (AndroidPathMapper.resolve_apk_dir fs c bf.domain).1 = some ad :=
              hfst.trans hr
            rw [hl]
            exact ⟨rfl, hequiv⟩
          | none =>
            have hl : (AndroidPathMapper.resolve_apk_dir fs c bf.domain).1 = none :=
              hfst.trans hr
            rw [hl]
            exact ⟨rfl, hequiv⟩
        · simp only [if_neg h5]
          cases dictGet TOKEN_PATH_MAPPINGS bf.token with
          | none => exact ⟨rfl, h⟩
          | some template =>
            constructor
            · rw [apply_ite Prod.fst, apply_ite Prod.fst]
            · rw [apply_ite Prod.snd, apply_ite Prod.snd, ite_self, ite_self]; exact h

/-- `_map_backup_file` only ever extends the cache with memoised scan
results, so the cache after a call is equivalent to the cache before it. -/
theorem map_backup_file_cache_after (fs : FilesystemAcquisition) (c : ApkCache)
    (bf : AndroidBackupFile) :
    ApkCacheEquiv fs (AndroidPathMapper.map_backup_file fs c bf).2 c := by
  simp only [AndroidPathMapper.map_backup_file]
  by_cases h1 : UNMAPPABLE_TOKENS.contains bf.token = true
  · simp only [if_pos h1]; exact apkCacheEquiv_refl fs c
  · simp only [if_neg h1]
    by_cases h2 : startsWith bf.domain (pstr "shared/") = true
    · simp only [if_pos h2]
      rw [apply_ite Prod.snd, ite_self]
      exact apkCacheEquiv_refl fs c
    · simp only [if_neg h2]
      by_cases h4 : bf.token.isEmpty = true
      · simp only [if_pos h4]; exact apkCacheEquiv_refl fs c
      · simp only [if_neg h4]
        by_cases h5 : bf.token = pstr "a"
        · simp only [if_pos h5]
          cases hr : (AndroidPathMapper.resolve_apk_dir fs c bf.domain).1 with
          | some ad => exact apkCacheEquiv_resolve_after fs c bf.domain
          | none => exact apkCacheEquiv_resolve_after fs c bf.domain
        · simp only [if_neg h5]
          cases dictGet TOKEN_PATH_MAPPINGS bf.token with
          | none => exact apkCacheEquiv_refl fs c
          | some template =>
            rw [apply_ite Prod.snd, ite_self]
            exact apkCacheEquiv_refl fs c

/-- One loop iteration of `AndroidPathMapper.map_all` run on equivalent
caches: mappings, statistics and matched-path set agree, caches stay
equivalent. -/
theorem map_all_step_congr (fs : FilesystemAcquisition)
    (m : List (PathMapping AndroidBackupFile)) (s : MappingStatistics)
    (p : List PStr) {c c' : ApkCache} (h : ApkCacheEquiv fs c c')
    (bf : AndroidBackupFile) :
    (AndroidPathMapper.map_all_step fs (m, s, p, c) bf).1
      = (AndroidPathMapper.map_all_step fs (m, s, p, c') bf).1
  ∧ (AndroidPathMapper.map_all_step fs (m, s, p, c) bf).2.1
      = (AndroidPathMapper.map_all_step fs (m, s, p, c') bf).2.1
  ∧ (AndroidPathMapper.map_all_step fs (m, s, p, c) bf).2.2.1
      = (AndroidPathMapper.map_all_step fs (m, s, p, c') bf).2.2.1
  ∧ ApkCacheEquiv fs (AndroidPathMapper.map_all_step fs (m, s, p, c) bf).2.2.2
      (AndroidPathMapper.map_all_step fs (m, s, p, c') bf).2.2.2 := by
  obtain ⟨hfst, hsnd⟩ := map_backup_file_congr fs h bf
  simp only [AndroidPathMapper.map_all_step]
  by_cases hd : bf.is_directory = true
  · simp only [if_pos hd]; exact ⟨by simp, by simp, by simp, h⟩
  · simp only [if_neg hd]
    rcases hr : AndroidPathMapper.map_backup_file fs c bf with ⟨⟨o, note⟩, cc⟩
    rcases hr2 : AndroidPathMapper.map_backup_file fs c' bf with ⟨⟨o2, note2⟩, cc2⟩
    rw [hr, hr2] at hfst hsnd
    simp only [Prod.mk.injEq] at hfst
    obtain ⟨ho, hn⟩ := hfst
    subst ho
    subst hn
    cases o with
    | none => exact ⟨rfl, rfl, rfl, hsnd⟩
    | some fsp =>
      dsimp only
      cases hff : fs.find_file fsp with
      | some fs_file => exact ⟨rfl, rfl, rfl, hsnd⟩
      | none => exact ⟨rfl, rfl, rfl, hsnd⟩

/-- One loop iteration leaves the APK cache equivalent to what it was. -/
theorem map_all_step_cache_after (fs : FilesystemAcquisition)
    (m : List (PathMapping AndroidBackupFile)) (s : MappingStatistics)
    (p : List PStr) (c : ApkCache) (bf : AndroidBackupFile) :
    ApkCacheEquiv fs (AndroidPathMapper.map_all_step fs (m, s, p, c) bf).2.2.2 c := by
  have hca := map_backup_file_cache_after fs c bf
  simp only [AndroidPathMapper.map_all_step]
  by_cases hd : bf.is_directory = true
  · simp only [if_pos hd]; exact apkCacheEquiv_refl fs c
  · simp only [if_neg hd]
    rcases hr : AndroidPathMapper.map_backup_file fs c bf with ⟨⟨o, note⟩, cc⟩
    rw [hr] at hca
    cases o with
    | none => exact hca
    | some fsp =>
      dsimp only
      cases hff : fs.find_file fsp with
      | some fs_file => exact hca
      | none => exact hca

/-- The whole per-file loop of `AndroidPathMapper.map_all`, run on
equivalent caches, produces the same mappings, statistics and matched-path
set, and equivalent caches. -/
theorem map_all_loop_congr (fs : FilesystemAcquisition)
    (files : List AndroidBackupFile) :
    ∀ (m : List (PathMapping AndroidBackupFile)) (s : MappingStatistics)
      (p : List PStr) (c c' : ApkCache), ApkCacheEquiv fs c c' →
      (files.foldl (AndroidPathMapper.map_all_step fs) (m, s, p, c)).1
        = (files.foldl (AndroidPathMapper.map_all_step fs) (m, s, p, c')).1
    ∧ (files.foldl (AndroidPathMapper.map_all_step fs) (m, s, p, c)).2.1
        = (files.foldl (AndroidPathMapper.map_all_step fs) (m, s, p, c')).2.1
    ∧ (files.foldl (AndroidPathMapper.map_all_step fs) (m, s, p, c)).2.2.1
        = (files.foldl (AndroidPathMapper.map_all_step fs) (m, s, p, c')).2.2.1
    ∧ ApkCacheEquiv fs
        (files.foldl (AndroidPathMapper.map_all_step fs) (m, s, p, c)).2.2.2
        (files.foldl (AndroidPathMapper.map_all_step fs) (m, s, p, c')).2.2.2 := by
  induction files with
  | nil => intro m s p c c' h; exact ⟨rfl, rfl, rfl, h⟩
  | cons bf rest ih =>
    intro m s p c c' h
    obtain ⟨e1, e2, e3, e4⟩ := map_all_step_congr fs m s p h bf
    have hinit : ((AndroidPathMapper.map_all_step fs (m, s, p, c) bf).1,
          (AndroidPathMapper.map_all_step fs (m, s, p, c) bf).2.1,
          (AndroidPathMapper.map_all_step fs (m, s, p, c) bf).2.2.1,
          (AndroidPathMapper.map_all_step fs (m, s, p, c') bf).2.2.2)
        = ((AndroidPathMapper.map_all_step fs (m, s, p, c') bf).1,
          (AndroidPathMapper.map_all_step fs (m, s, p, c') bf).2.1,
          (AndroidPathMapper.map_all_step fs (m, s, p, c') bf).2.2.1,
          (AndroidPathMapper.map_all_step fs (m, s, p, c') bf).2.2.2) := by
      rw [e1, e2, e3]
    have key := ih (AndroidPathMapper.map_all_step fs (m, s, p, c) bf).1
      (AndroidPathMapper.map_all_step fs (m, s, p, c) bf).2.1
      (AndroidPathMapper.map_all_step fs (m, s, p, c) bf).2.2.1
      (AndroidPathMapper.map_all_step fs (m, s, p, c) bf).2.2.2
      (AndroidPathMapper.map_all_step fs (m, s, p, c') bf).2.2.2 e4
    rw [hinit] at key
    exact key

/-- The whole per-file loop leaves the APK cache equivalent to the
incoming one. -/
theorem map_all_loop_cache_after (fs : FilesystemAcquisition)
    (files : List AndroidBackupFile) :
    ∀ (m : List (PathMapping AndroidBackupFile)) (s : MappingStatistics)
      (p : List PStr) (c : ApkCache),
      ApkCacheEquiv fs
        (files.foldl (AndroidPathMapper.map_all_step fs) (m, s, p, c)).2.2.2 c := by
  induction files with
  | nil => intro m s p c; exact apkCacheEquiv_refl fs c
  | cons bf rest ih =>
    intro m s p c
    have h1 := map_all_step_cache_after fs m s p c bf
    have h2 := ih (AndroidPathMapper.map_all_step fs (m, s, p, c) bf).1
      (AndroidPathMapper.map_all_step fs (m, s, p, c) bf).2.1
      (AndroidPathMapper.map_all_step fs (m, s, p, c) bf).2.2.1
      (AndroidPathMapper.map_all_step fs (m, s, p, c) bf).2.2.2
    exact apkCacheEquiv_trans h2 h1

/-- The post-loop statistics of `AndroidPathMapper.map_all` depend only on
the loop's mappings, statistics and matched-path set, not on its cache. -/
theorem map_all_finish_congr (fs : FilesystemAcquisition)
    (L L' : List (PathMapping AndroidBackupFile) × MappingStatistics × List PStr × ApkCache)
    (h1 : L.1 = L'.1) (h2 : L.2.1 = L'.2.1) (h3 : L.2.2.1 = L'.2.2.1) :
    (AndroidPathMapper.map_all_finish fs L).1 = (AndroidPathMapper.map_all_finish fs L').1
  ∧ (AndroidPathMapper.map_all_finish fs L).2.1
      = (AndroidPathMapper.map_all_finish fs L').2.1 := by
  simp only [AndroidPathMapper.map_all_finish]
  rw [h1, h2, h3]
  exact ⟨rfl, rfl⟩

/-- `AndroidPathMapper.map_all` started from equivalent caches produces the
same mappings and the same statistics. -/
theorem android_map_all_congr (backup : AndroidBackup)
    (filesystem : FilesystemAcquisition)
    (st st' : List (PathMapping AndroidBackupFile) × MappingStatistics × ApkCache)
    (h : ApkCacheEquiv filesystem st.2.2 st'.2.2) :
    (AndroidPathMapper.map_all backup filesystem st).1
      = (AndroidPathMapper.map_all backup filesystem st').1
  ∧ (AndroidPathMapper.map_all backup filesystem st).2.1
      = (AndroidPathMapper.map_all backup filesystem st').2.1 := by
  simp only [AndroidPathMapper.map_all]
  refine map_all_finish_congr filesystem _ _ ?_ ?_ ?_
  · exact (map_all_loop_congr filesystem backup.files _ _ _ _ _ h).1
  · exact (map_all_loop_congr filesystem backup.files _ _ _ _ _ h).2.1
  · exact (map_all_loop_congr filesystem backup.files _ _ _ _ _ h).2.2.1

/-- One run of `AndroidPathMapper.map_all` leaves the APK cache equivalent
to the incoming one. -/
theorem android_map_all_cache_after (backup : AndroidBackup)
    (filesystem : FilesystemAcquisition)
    (st : List (PathMapping AndroidBackupFile) × MappingStatistics × ApkCache) :
    ApkCacheEquiv filesystem (AndroidPathMapper.map_all backup filesystem st).2.2 st.2.2 := by
  simp only [AndroidPathMapper.map_all, AndroidPathMapper.map_all_finish]
  exact map_all_loop_cache_after filesystem backup.files _ _ _ st.2.2

/-- Claim C3, amended: for the AndroidPathMapper and the
filesystem-to-filesystem mapper, `map_all` run twice on unchanged inputs
yields the same mappings and `MappingStatistics` as the first run — those
two mappers rebuild both lists wholesale (the Android mapper's persistent
`_apk_dir_cache` only memoises filesystem scans, so it never changes
results).  The iOS `PathMapper` resets only `self.mappings` and keeps
accumulating most `self.statistics` counters, so its second run differs. -/
theorem map_all_idempotent_android_fs :
    (∀ (backup : AndroidBackup) (filesystem : FilesystemAcquisition)
       (st : List (PathMapping AndroidBackupFile) × MappingStatistics × ApkCache),
       (AndroidPathMapper.map_all backup filesystem
          (AndroidPathMapper.map_all backup filesystem st)).2.1
         = (AndroidPathMapper.map_all backup filesystem st).2.1
     ∧ (AndroidPathMapper.map_all backup filesystem
          (AndroidPathMapper.map_all backup filesystem st)).1
         = (AndroidPathMapper.map_all backup filesystem st).1)
  ∧ (∀ (backup : FilesystemAsBackup) (filesystem : FilesystemAcquisition)
       (st : List (PathMapping FilesystemAsBackupFile) × MappingStatistics),
       FilesystemMapper.map_all backup filesystem
          (FilesystemMapper.map_all backup filesystem st)
         = FilesystemMapper.map_all backup filesystem st) := by
  constructor
  · intro backup filesystem st
    have hc := android_map_all_cache_after backup filesystem st
    have h := android_map_all_congr backup filesystem
      (AndroidPathMapper.map_all backup filesystem st) st hc
    exact ⟨h.2, h.1⟩
  · intro backup filesystem st
    rfl
